import Mathlib

/-!
Verification of the module-format parser, linter and source-block indexer of
`module-preview` (files `src/lc_parser.ts` and `src/source_index.ts`).

The JavaScript string type is modelled as `List Char`; every function below is
a direct transcription of the corresponding TypeScript function, with JS
regular expressions expanded into their exact matching semantics (greedy /
lazy quantifiers and backtracking are resolved by hand and noted at each
definition).  JS truthiness on strings (`""` is falsy) is modelled by the
`jsOr` / `jsOrNull` / `strTruthy` helpers; `null`/`undefined` by `Option`.
-/

namespace LC

/-- Model of a JavaScript string: a list of characters. -/
abbrev Str := List Char

/-- Convert a Lean string literal into the model type. -/
def str (s : String) : Str := s.data

/-- Whitespace test used to model JS `trim` / `\s` (ASCII subset). -/
def isWS (c : Char) : Bool := c = ' ' || c = '\t' || c = '\n' || c = '\r'

/-- Model of JS `String.prototype.trimStart`. -/
def trimStart (l : Str) : Str := l.dropWhile isWS

/-- Model of JS `String.prototype.trimEnd`. -/
def trimEnd (l : Str) : Str := (l.reverse.dropWhile isWS).reverse

/-- Model of JS `String.prototype.trim`. -/
def trim (l : Str) : Str := trimStart (trimEnd l)

/-- Model of JS `s.startsWith(p)`; the pattern is scrutinised first so that
applications with a literal pattern reduce definitionally. -/
def startsWith (l p : Str) : Bool := p.isPrefixOf l

/-- Model of JS `content.split("\n")`. -/
def splitLines (s : Str) : List Str := s.splitOn '\n'

/-- Model of JS `lines.join("\n")`. -/
def joinNL (ls : List Str) : Str := (ls.intersperse (str "\n")).flatten

/-- JS truthiness of an optional string (`undefined`, `null` and `""` are falsy). -/
def strTruthy (o : Option Str) : Bool :=
  match o with
  | none => false
  | some s => !s.isEmpty

/-- Model of the JS idiom `x || dflt` on an optional string. -/
def jsOr (o : Option Str) (dflt : Str) : Str :=
  match o with
  | none => dflt
  | some s => if s.isEmpty then dflt else s

/-- Model of the JS idiom `x || null` on an optional string. -/
def jsOrNull (o : Option Str) : Option Str :=
  match o with
  | none => none
  | some s => if s.isEmpty then none else s

/-- Model of the JS idiom `x || dflt` on two (non-optional) strings. -/
def jsOrStr (s dflt : Str) : Str := if s.isEmpty then dflt else s

/-- Model of the JS idiom `b || false` on an optional boolean. -/
def jsOrFalse (o : Option Bool) : Bool :=
  match o with
  | none => false
  | some b => b

/-- Character class of `[a-z0-9]` (the characters kept by the slug functions). -/
def isSlugChar (c : Char) : Bool := ('a' ≤ c && c ≤ 'z') || ('0' ≤ c && c ≤ '9')

/-- Model of JS `toLowerCase` (ASCII). -/
def toLowerStr (s : Str) : Str := s.map Char.toLower

/-- Model of `replace(/[^a-z0-9]+/g, "-")`: every maximal run of non-slug
characters becomes a single dash.  The boolean records whether the previous
character was part of such a run. -/
def collapseNonSlug (prevBad : Bool) : Str → Str
  | [] => []
  | c :: rest =>
    if isSlugChar c then c :: collapseNonSlug false rest
    else if prevBad then collapseNonSlug true rest
    else '-' :: collapseNonSlug true rest

/-- Model of the `^-` half of `replace(/^-|-$/g, "")` (one leading dash). -/
def dropLeadDash : Str → Str
  | '-' :: r => r
  | r => r

/-- Model of the `-$` half of `replace(/^-|-$/g, "")` (one trailing dash). -/
def dropTrailDash (l : Str) : Str := (dropLeadDash l.reverse).reverse

/-- Model of the slug computation shared (verbatim, as two identical copies)
by `generateLessonId`/`generateActivityId` in `lc_parser.ts` and `slug` in
`source_index.ts`:
`s.toLowerCase().replace(/[^a-z0-9]+/g, "-").replace(/^-|-$/g, "")`. -/
def slug (s : Str) : Str := dropTrailDash (dropLeadDash (collapseNonSlug false (toLowerStr s)))

/-- Model of assignment `obj[k] = v` on a JS object used as a string-keyed map:
an existing key is overwritten in place, a new key is appended. -/
def upsert {β : Type} : List (Str × β) → Str → β → List (Str × β)
  | [], k, v => [(k, v)]
  | (k', v') :: rest, k, v =>
    if k' = k then (k', v) :: rest else (k', v') :: upsert rest k v

/-- Key membership in the association-list model of a JS object. -/
def hasKeyB {β : Type} (m : List (Str × β)) (k : Str) : Bool := m.any fun p => p.1 = k

/-- Lookup in the association-list model of a JS object / Map. -/
def lookupKey {β : Type} : List (Str × β) → Str → Option β
  | [], _ => none
  | (k', v') :: rest, k => if k' = k then some v' else lookupKey rest k

-- =============================================================================
-- Regular-expression models
-- =============================================================================

/-- Character class `[A-Z_]` of field names. -/
def isFieldChar (c : Char) : Bool := ('A' ≤ c && c ≤ 'Z') || c = '_'

/-- Character class `\w` = `[A-Za-z0-9_]`. -/
def isWordChar (c : Char) : Bool := c.isAlpha || c.isDigit || c = '_'

/-- Model of `line.match(/^([A-Z_]+):\s*(.*)?$/)`, returning the field name and
the value.  The greedy `[A-Z_]+` with the following literal `:` matches exactly
when the maximal `[A-Z_]` run is nonempty and immediately followed by `:`
(backtracking to a shorter run cannot help, since the next character would
still be in `[A-Z_]`); `\s*` then greedily eats the whitespace after the colon
and `(.*)` takes the rest of the line. -/
def fieldMatch (l : Str) : Option (Str × Str) :=
  let name := l.takeWhile isFieldChar
  if name.isEmpty then none
  else
    match l.drop name.length with
    | ':' :: rest => some (name, rest.dropWhile isWS)
    | _ => none

/-- Model of `line.match(/^\$(\w+)(?:\s+(.*))?$/)`: a `$` sigil, the maximal
`\w+` run as the marker word, then either end of line (no title) or at least
one whitespace character followed by the title (`\s+` greedily eats the
whitespace run, `(.*)` takes the rest).  If a non-word, non-whitespace
character follows the marker word the whole regex fails (backtracking `\w+`
cannot help since any shorter run is still followed by a word character). -/
def markerMatch (l : Str) : Option (Str × Option Str) :=
  match l with
  | '$' :: rest =>
    let marker := rest.takeWhile isWordChar
    if marker.isEmpty then none
    else
      match rest.drop marker.length with
      | [] => some (marker, none)
      | c :: cs => if isWS c then some (marker, some ((c :: cs).dropWhile isWS)) else none
  | _ => none

/-- Model of `value.match(/^([^|]+)(?:\s*\|\s*(.*))?$/)` used for the single
voice fields: `[^|]+` greedily takes everything up to the first `|` (or the
whole string when there is none; it fails when the string is empty or starts
with `|`), then the optional group consumes the `|` and the rest, `\s*`
greedily dropping the whitespace after the bar. -/
def singleVoiceMatch (v : Str) : Option (Str × Option Str) :=
  let before := v.takeWhile (fun c => c ≠ '|')
  if before.isEmpty then none
  else
    match v.drop before.length with
    | [] => some (before, none)
    | _ :: cs => some (before, some (cs.dropWhile isWS))

/-- Tail matcher for `\s*([^|]+)(?:\s*\|\s*(.*))?$` (everything of the
`VOICE_SPEAKER` regex after the `=` sign).  Backtracking subtleties of the
greedy `\s*` followed by `[^|]+`:
* if after the maximal whitespace run a non-`|` character remains, `[^|]+`
  takes everything up to the next `|` / end, and the optional group handles
  the rest;
* if the remainder starts with `|` but some whitespace was skipped, `\s*`
  gives one whitespace character back to `[^|]+` (whitespace is a non-`|`
  character) and the optional group consumes the `|`;
* if the string is nonempty but all whitespace, `\s*` gives its last
  character back to `[^|]+` and the optional group is empty;
* an empty string, or an immediate `|` with no preceding whitespace, fails. -/
def voiceTailMatch (r2 : Str) : Option (Str × Option Str) :=
  let r3 := r2.dropWhile isWS
  match r3 with
  | [] =>
    match r2.reverse with
    | [] => none
    | c :: _ => some ([c], none)
  | '|' :: cs =>
    match (r2.take (r2.length - r3.length)).reverse with
    | [] => none
    | w :: _ => some ([w], some (cs.dropWhile isWS))
  | _ :: _ =>
    let g2 := r3.takeWhile (fun ch => ch ≠ '|')
    match r3.drop g2.length with
    | [] => some (g2, none)
    | _ :: rest => some (g2, some (rest.dropWhile isWS))

/-- Auxiliary loop of `speakerMatch`: the lazy `(.+?)` grows the first group
one character at a time, testing after each step whether the remainder
matches `\s*=\s*([^|]+)(?:\s*\|\s*(.*))?$`. -/
def speakerMatchAux (acc : Str) : Str → Option (Str × Str × Option Str)
  | [] => none
  | c :: rest =>
    match
      (match (rest.dropWhile isWS) with
       | '=' :: r2 => voiceTailMatch r2
       | _ => none) with
    | some (g2, g3) => some (acc ++ [c], g2, g3)
    | none => speakerMatchAux (acc ++ [c]) rest

/-- Model of `value.match(/^(.+?)\s*=\s*([^|]+)(?:\s*\|\s*(.*))?$/)` used for
the `VOICE_SPEAKER` field (both in the parser and in the linter). -/
def speakerMatch (v : Str) : Option (Str × Str × Option Str) := speakerMatchAux [] v

-- =============================================================================
-- Data model (lc_types shapes, as constructed by the parser)
-- =============================================================================

/-- Vocabulary pair attached to a dialogue line. -/
structure VocabEntry where
  word : Str
  definition : Str
deriving DecidableEq, Repr

/-- Parsed dialogue line.  `nlp` and `ttsDataURL` are backend-populated
placeholders, always emitted as `null` by the parser. -/
structure DialogueLine where
  speaker : Option Str
  text : Str
  translation : Str
  notes : Option Str
  vocab : Option (List VocabEntry)
  nlp : Option Unit
  ttsDataURL : Option Unit
deriving DecidableEq, Repr

/-- Parsed exercise item, with the four backend placeholder fields. -/
structure ExerciseItem where
  prompt : Str
  promptTranslation : Option Str
  response : Str
  responseTranslation : Option Str
  isExample : Bool
  promptNlp : Option Unit
  responseNlp : Option Unit
  promptTtsDataURL : Option Unit
  responseTtsDataURL : Option Unit
deriving DecidableEq, Repr

-- =============================================================================
-- Content parser: parseDialogueLines
-- =============================================================================

/-- In-progress dialogue line (`Partial<DialogueLine>` accumulator). -/
structure DLineAcc where
  speaker : Option Str := none
  text : Option Str := none
  translation : Option Str := none
  notes : Option Str := none
  vocab : Option (List VocabEntry) := none
deriving DecidableEq, Repr

/-- Walking state of `parseDialogueLines`. -/
structure DState where
  lines : List DialogueLine := []
  currentLine : DLineAcc := {}
  pendingVocab : List VocabEntry := []
  pendingVocabDefinition : Option Str := none
deriving DecidableEq, Repr

/-- Model of the dialogue-line record pushed by `parseDialogueLines`; note
that `currentLine.vocab || null` keeps the array as-is (a JS array is always
truthy), while the string fields use string truthiness. -/
def flushDialogueLine (acc : DLineAcc) : DialogueLine :=
  { speaker := jsOrNull acc.speaker
    text := acc.text.getD []
    translation := jsOr acc.translation []
    notes := jsOrNull acc.notes
    vocab := acc.vocab
    nlp := none
    ttsDataURL := none }

/-- Model of `pendingVocab[pendingVocab.length - 1].definition = definition`. -/
def setLastDefinition (d : Str) : List VocabEntry → List VocabEntry
  | [] => []
  | [e] => [{ e with definition := d }]
  | e :: rest => e :: setLastDefinition d rest

/-- One iteration of the `for (const item of buffer)` loop of
`parseDialogueLines` (lc_parser.ts, lines 535–598). -/
def dialogueStep (st : DState) (item : Str) : DState :=
  if startsWith item (str "VOCAB:") then
    let word := trim (item.drop 6)
    { st with
      pendingVocab := st.pendingVocab ++ [⟨word, jsOr st.pendingVocabDefinition []⟩]
      pendingVocabDefinition := none }
  else if startsWith item (str "VOCAB_T:") then
    let definition := trim (item.drop 8)
    if 0 < st.pendingVocab.length then
      { st with pendingVocab := setLastDefinition definition st.pendingVocab }
    else
      { st with pendingVocabDefinition := some definition }
  else if startsWith item (str "LINE_T:") then
    { st with currentLine.translation := some (trim (item.drop 7)) }
  else if startsWith item (str "NOTES:") then
    { st with currentLine.notes := some (trim (item.drop 6)) }
  else if startsWith item (str "SPEAKER:") then
    let st1 :=
      if strTruthy st.currentLine.text then
        { st with lines := st.lines ++ [flushDialogueLine st.currentLine], currentLine := {} }
      else st
    let st2 := { st1 with currentLine.speaker := some (trim (item.drop 8)) }
    if 0 < st2.pendingVocab.length then
      { st2 with currentLine.vocab := some st2.pendingVocab, pendingVocab := [] }
    else st2
  else if startsWith item (str "LINE:") then
    let st1 :=
      if strTruthy st.currentLine.text then
        { st with
          lines := st.lines ++ [flushDialogueLine st.currentLine]
          currentLine := { speaker := st.currentLine.speaker } }
      else st
    let st2 := { st1 with currentLine.text := some (trim (item.drop 5)) }
    if 0 < st2.pendingVocab.length then
      { st2 with currentLine.vocab := some st2.pendingVocab, pendingVocab := [] }
    else st2
  else st

/-- Model of `parseDialogueLines` (lc_parser.ts, lines 528–614). -/
def parseDialogueLines (buffer : List Str) : List DialogueLine :=
  let st := buffer.foldl dialogueStep {}
  if strTruthy st.currentLine.text then st.lines ++ [flushDialogueLine st.currentLine]
  else st.lines

-- =============================================================================
-- Content parser: parseGrammarContent
-- =============================================================================

/-- Model of `parseGrammarContent` (lc_parser.ts, lines 616–619). -/
def parseGrammarContent (buffer : List Str) : Str := trim (joinNL buffer)

-- =============================================================================
-- Content parser: parseExerciseItems
-- =============================================================================

/-- In-progress exercise item (`Partial<ExerciseItem>` accumulator). -/
structure EItemAcc where
  prompt : Option Str := none
  promptTranslation : Option Str := none
  response : Option Str := none
  responseTranslation : Option Str := none
  isExample : Option Bool := none
deriving DecidableEq, Repr

/-- Walking state of `parseExerciseItems`. -/
structure EState where
  items : List ExerciseItem := []
  currentItem : EItemAcc := {}
  isExample : Bool := false
deriving DecidableEq, Repr

/-- Model of the exercise-item record pushed by `parseExerciseItems`. -/
def flushExerciseItem (acc : EItemAcc) : ExerciseItem :=
  { prompt := acc.prompt.getD []
    promptTranslation := jsOrNull acc.promptTranslation
    response := acc.response.getD []
    responseTranslation := jsOrNull acc.responseTranslation
    isExample := jsOrFalse acc.isExample
    promptNlp := none
    responseNlp := none
    promptTtsDataURL := none
    responseTtsDataURL := none }

/-- One iteration of the `for (const item of buffer)` loop of
`parseExerciseItems` (lc_parser.ts, lines 626–661). -/
def exerciseStep (st : EState) (item : Str) : EState :=
  if startsWith item (str "EXAMPLE:") then
    { st with isExample := true }
  else if startsWith item (str "PROMPT:") then
    let st1 :=
      if strTruthy st.currentItem.prompt && strTruthy st.currentItem.response then
        { st with items := st.items ++ [flushExerciseItem st.currentItem] }
      else st
    { st1 with
      currentItem := { prompt := some (trim (item.drop 7)), isExample := some st.isExample }
      isExample := false }
  else if startsWith item (str "PROMPT_T:") then
    { st with currentItem.promptTranslation := some (trim (item.drop 9)) }
  else if startsWith item (str "RESPONSE:") then
    { st with currentItem.response := some (trim (item.drop 9)) }
  else if startsWith item (str "RESPONSE_T:") then
    { st with currentItem.responseTranslation := some (trim (item.drop 11)) }
  else st

/-- Model of `parseExerciseItems` (lc_parser.ts, lines 621–679). -/
def parseExerciseItems (buffer : List Str) : List ExerciseItem :=
  let st := buffer.foldl exerciseStep {}
  if strTruthy st.currentItem.prompt && strTruthy st.currentItem.response then
    st.items ++ [flushExerciseItem st.currentItem]
  else st.items

-- =============================================================================
-- Module data model (lc_types shapes, as constructed by parseModuleFile)
-- =============================================================================

/-- Voice specification: voice name with optional style prompt; the newer
`VOICE` field form also carries an optional display name. -/
structure VoiceSpec where
  voice : Str
  prompt : Option Str
  displayName : Option Str := none
deriving DecidableEq, Repr

/-- Voice configuration accumulated from the module header. -/
structure ModuleVoiceConfig where
  default : Option VoiceSpec
  prompt : Option VoiceSpec
  response : Option VoiceSpec
  introVoice : Option VoiceSpec
  speakers : List (Str × VoiceSpec)
deriving DecidableEq, Repr

/-- Activity kind discriminant. -/
inductive ActKind
  | dialogue
  | exercise
  | grammar
  | chat
deriving DecidableEq, Repr

/-- The `${type}` string of an activity kind. -/
def kindStr : ActKind → Str
  | .dialogue => str "DIALOGUE"
  | .exercise => str "EXERCISE"
  | .grammar => str "GRAMMAR"
  | .chat => str "CHAT"

/-- Kind-specific payload of a finished activity. -/
inductive ActivityPayload
  | dialogue (instruction : Option Str) (ttsPrompt : Option Str) (lines : List DialogueLine)
  | exercise (instruction : Option Str) (ttsPrompt : Option Str) (items : List ExerciseItem)
  | grammar (content : Str)
  | chat (scenario : Str) (initialPrompt : Str)
deriving DecidableEq, Repr

/-- Finished activity (tagged union over the four kinds, with the common
`id`/`title`/`intro` fields). -/
structure Activity where
  id : Str
  title : Str
  intro : Option Str
  payload : ActivityPayload
deriving DecidableEq, Repr

/-- Lesson: id (slug of the title), title, activities. -/
structure LessonContent where
  id : Str
  title : Str
  activities : List Activity
deriving DecidableEq, Repr

/-- Finished module. -/
structure Module where
  diocoDocId : Str
  title : Str
  description : Option Str
  image : Option Str
  targetLang_G : Str
  homeLang_G : Str
  voiceConfig : ModuleVoiceConfig
  ttsPrompt : Option Str
  lessons : List LessonContent
deriving DecidableEq, Repr

-- =============================================================================
-- Module parser state
-- =============================================================================

/-- Accumulator for `Partial<Module>`. -/
structure ModuleAcc where
  diocoDocId : Option Str := none
  title : Option Str := none
  description : Option Str := none
  image : Option Str := none
  targetLang_G : Option Str := none
  homeLang_G : Option Str := none
  ttsPrompt : Option Str := none
  lessons : List LessonContent := []
deriving DecidableEq, Repr

/-- Accumulator for `Partial<Activity>` while an activity is open; the
kind-specific content (lines/items/content) is produced from the buffer only
when the activity is finalized. -/
structure ActivityAcc where
  type : ActKind
  id : Str
  title : Str
  intro : Option Str := none
  instruction : Option Str := none
  ttsPrompt : Option Str := none
  scenario : Str := []
  initialPrompt : Str := []
deriving DecidableEq, Repr

/-- Parser state (`ParserState` in lc_parser.ts). -/
structure PState where
  module : ModuleAcc
  voiceConfig : ModuleVoiceConfig
  currentLesson : Option LessonContent
  currentActivity : Option ActivityAcc
  activityContentBuffer : List Str
deriving DecidableEq, Repr

/-- Initial parser state of `parseModuleFile`. -/
def initPState : PState :=
  { module := {}
    voiceConfig := { default := none, prompt := none, response := none,
                     introVoice := none, speakers := [] }
    currentLesson := none
    currentActivity := none
    activityContentBuffer := [] }

/-- Model of `generateLessonId` (lc_parser.ts, lines 685–690). -/
def generateLessonId (title : Str) : Str := slug title

/-- Model of `generateActivityId` (lc_parser.ts, lines 692–698). -/
def generateActivityId (type : ActKind) (title : Str) : Str :=
  kindStr type ++ str "-" ++ slug title

/-- Model of the finished activity built by `finalizeActivity` from the
accumulator and the buffered content lines. -/
def mkActivity (acc : ActivityAcc) (buffer : List Str) : Activity :=
  { id := acc.id
    title := acc.title
    intro := acc.intro
    payload :=
      match acc.type with
      | .dialogue => .dialogue acc.instruction acc.ttsPrompt (parseDialogueLines buffer)
      | .exercise => .exercise acc.instruction acc.ttsPrompt (parseExerciseItems buffer)
      | .grammar => .grammar (parseGrammarContent buffer)
      | .chat => .chat acc.scenario acc.initialPrompt }

/-- Model of `finalizeActivity` (lc_parser.ts, lines 486–514): requires both
an open activity and an open lesson, parses the buffered content and appends
the activity to the current lesson. -/
def finalizeActivity (st : PState) : PState :=
  match st.currentActivity, st.currentLesson with
  | some acc, some les =>
    { st with
      currentLesson := some { les with
          activities := les.activities ++ [mkActivity acc st.activityContentBuffer] }
      currentActivity := none
      activityContentBuffer := [] }
  | _, _ => st

/-- Model of `finalizeLesson` (lc_parser.ts, lines 516–522). -/
def finalizeLesson (st : PState) : PState :=
  match st.currentLesson with
  | some les =>
    { st with
      module := { st.module with lessons := st.module.lessons ++ [les] }
      currentLesson := none }
  | none => st

/-- Model of `startActivity` (lc_parser.ts, lines 429–484). -/
def startActivity (st : PState) (type : ActKind) (title : Str) : PState :=
  let st1 := finalizeActivity st
  let st2 :=
    if st1.currentLesson = none then
      { st1 with currentLesson := some {
          id := str "default-lesson", title := str "Default Lesson", activities := [] } }
    else st1
  { st2 with
    currentActivity := some {
        type := type
        id := generateActivityId type title
        title := title
        intro := none
        instruction := none
        ttsPrompt := none
        scenario := []
        initialPrompt := [] }
    activityContentBuffer := [] }

/-- Activity kind named by a marker word, if any. -/
def actKindOfMarker (marker : Str) : Option ActKind :=
  if marker = str "DIALOGUE" then some .dialogue
  else if marker = str "EXERCISE" then some .exercise
  else if marker = str "GRAMMAR" then some .grammar
  else if marker = str "CHAT" then some .chat
  else none

/-- Branch taken by the `switch (marker)` of `handleSectionMarker` (and by the
marker dispatch of the linter). -/
inductive MarkerKind
  | module
  | lesson
  | activity (k : ActKind)
  | unknown
deriving DecidableEq, Repr

/-- Classify a marker word the way the `switch (marker)` statements do. -/
def markerKind (marker : Str) : MarkerKind :=
  if marker = str "MODULE" then .module
  else if marker = str "LESSON" then .lesson
  else
    match actKindOfMarker marker with
    | some k => .activity k
    | none => .unknown

/-- Default title the parser substitutes for an activity marker without a
title (`title || "Dialogue"` etc. in `handleSectionMarker`). -/
def defaultActTitle : ActKind → Str
  | .dialogue => str "Dialogue"
  | .exercise => str "Exercise"
  | .grammar => str "Grammar"
  | .chat => str "Chat"

/-- Model of `handleSectionMarker` (lc_parser.ts, lines 206–248).  Unknown
markers are only logged by the source; here they leave the state unchanged. -/
def handleSectionMarker (line : Str) (st : PState) : PState :=
  match markerMatch line with
  | none => st
  | some (marker, title) =>
    match markerKind marker with
    | .module => st
    | .lesson =>
      let st1 := finalizeLesson (finalizeActivity st)
      { st1 with currentLesson := some {
          id := generateLessonId (jsOr title (str "Untitled"))
          title := jsOr title (str "Untitled Lesson")
          activities := [] } }
    | .activity k => startActivity st k (jsOr title (defaultActTitle k))
    | .unknown => st

/-- Case selected by the module-level `switch (field)` of `handleField`
(`HOME_LANG_G` and the legacy `USER_LANG_G` share one case). -/
inductive ModuleFieldTag
  | diocoDocId
  | title
  | description
  | image
  | targetLang
  | homeLang
  | ttsPrompt
  | voiceDefault
  | voicePrompt
  | voiceResponse
  | voiceIntro
  | voiceSpeaker
  | voice
  | other
deriving DecidableEq, Repr

/-- Classify a field name the way the module-level `switch (field)` does. -/
def moduleFieldTag (f : Str) : ModuleFieldTag :=
  if f = str "DIOCO_DOC_ID" then .diocoDocId
  else if f = str "TITLE" then .title
  else if f = str "DESCRIPTION" then .description
  else if f = str "IMAGE" then .image
  else if f = str "TARGET_LANG_G" then .targetLang
  else if f = str "HOME_LANG_G" ∨ f = str "USER_LANG_G" then .homeLang
  else if f = str "TTS_PROMPT" then .ttsPrompt
  else if f = str "VOICE_DEFAULT" then .voiceDefault
  else if f = str "VOICE_PROMPT" then .voicePrompt
  else if f = str "VOICE_RESPONSE" then .voiceResponse
  else if f = str "VOICE_INTRO" then .voiceIntro
  else if f = str "VOICE_SPEAKER" then .voiceSpeaker
  else if f = str "VOICE" then .voice
  else .other

/-- Model of `parts.slice(2).join(" | ")` in the `VOICE` field handler. -/
def joinBar (ls : List Str) : Str := (ls.intersperse (str " | ")).flatten

/-- Model of the module-level branch of `handleField` (lc_parser.ts,
lines 252–350), reached only when no lesson and no activity is open. -/
def handleModuleField (field value : Str) (st : PState) : PState :=
  match moduleFieldTag field with
  | .diocoDocId => { st with module.diocoDocId := some value }
  | .title => { st with module.title := some value }
  | .description => { st with module.description := some value }
  | .image => { st with module.image := some value }
  | .targetLang => { st with module.targetLang_G := some value }
  | .homeLang => { st with module.homeLang_G := some value }
  | .ttsPrompt => { st with module.ttsPrompt := some value }
  | .voiceDefault =>
    match singleVoiceMatch value with
    | some (name, p) =>
      { st with voiceConfig.default := some {
          voice := trim name, prompt := (jsOrNull p).map trim } }
    | none => st
  | .voicePrompt =>
    match singleVoiceMatch value with
    | some (name, p) =>
      { st with voiceConfig.prompt := some {
          voice := trim name, prompt := (jsOrNull p).map trim } }
    | none => st
  | .voiceResponse =>
    match singleVoiceMatch value with
    | some (name, p) =>
      { st with voiceConfig.response := some {
          voice := trim name, prompt := (jsOrNull p).map trim } }
    | none => st
  | .voiceIntro =>
    match singleVoiceMatch value with
    | some (name, p) =>
      { st with voiceConfig.introVoice := some {
          voice := trim name, prompt := (jsOrNull p).map trim } }
    | none => st
  | .voiceSpeaker =>
    match speakerMatch value with
    | some (speakerName, voiceName, p) =>
      { st with voiceConfig.speakers :=
          upsert st.voiceConfig.speakers (trim speakerName) {
            voice := trim voiceName, prompt := (jsOrNull p).map trim } }
    | none => st
  | .voice =>
    let parts := (value.splitOn '|').map trim
    if 2 ≤ parts.length then
      { st with voiceConfig.speakers :=
          upsert st.voiceConfig.speakers (parts.headD []) {
            voice := parts.tail.headD []
            prompt := jsOrNull (some (joinBar (parts.drop 2)))
            displayName := none } }
    else st
  | .other => st

/-- The ten recognized activity fields that `handleField` re-pushes onto the
raw content buffer in `FIELD:value` form instead of interpreting directly. -/
def bufferedTagFields : List Str :=
  [str "SPEAKER", str "LINE", str "LINE_T", str "NOTES", str "VOCAB", str "VOCAB_T",
   str "PROMPT", str "PROMPT_T", str "RESPONSE", str "RESPONSE_T"]

/-- Case selected by the activity-level `switch (field)` of `handleField`;
the ten dialogue/exercise content fields share the `buffered` case, each of
which pushes its own field name back onto the buffer. -/
inductive ActivityFieldTag
  | ttsPrompt
  | instruction
  | intro
  | scenario
  | initialPrompt
  | buffered
  | other
deriving DecidableEq, Repr

/-- Classify a field name the way the activity-level `switch (field)` does. -/
def activityFieldTag (f : Str) : ActivityFieldTag :=
  if f = str "TTS_PROMPT" then .ttsPrompt
  else if f = str "INSTRUCTION" then .instruction
  else if f = str "INTRO" then .intro
  else if f = str "SCENARIO" then .scenario
  else if f = str "INITIAL_PROMPT" then .initialPrompt
  else if bufferedTagFields.contains f then .buffered
  else .other

/-- Model of the activity-level branch of `handleField` (lc_parser.ts,
lines 352–426); in the `buffered` case the pushed string is the matched
field name followed by `:` and the value, exactly as in each of the ten
source cases. -/
def handleActivityField (field value : Str) (acc : ActivityAcc) (st : PState) : PState :=
  match activityFieldTag field with
  | .ttsPrompt =>
    if acc.type = .dialogue ∨ acc.type = .exercise then
      { st with currentActivity := some { acc with ttsPrompt := some value } }
    else st
  | .instruction =>
    if acc.type = .dialogue ∨ acc.type = .exercise then
      { st with currentActivity := some { acc with instruction := some value } }
    else st
  | .intro =>
    { st with currentActivity := some { acc with intro := some value } }
  | .scenario =>
    if acc.type = .chat then
      { st with currentActivity := some { acc with scenario := value } }
    else st
  | .initialPrompt =>
    if acc.type = .chat then
      { st with currentActivity := some { acc with initialPrompt := value } }
    else st
  | .buffered =>
    { st with activityContentBuffer :=
        st.activityContentBuffer ++ [field ++ str ":" ++ value] }
  | .other => st

/-- Model of `handleField` (lc_parser.ts, lines 250–427): the module-level
switch runs only when neither a lesson nor an activity is open (each of its
cases returns); otherwise the activity-level switch runs when an activity is
open. -/
def handleField (field value : Str) (st : PState) : PState :=
  if st.currentActivity = none ∧ st.currentLesson = none then
    handleModuleField field value st
  else
    match st.currentActivity with
    | some acc => handleActivityField field value acc st
    | none => st

/-- Model of `processLine` (lc_parser.ts, lines 175–204). -/
def processLine (line : Str) (st : PState) : PState :=
  let trimmed := trimEnd line
  if startsWith (trimStart trimmed) (str "#") then st
  else if startsWith trimmed (str "$") then handleSectionMarker trimmed st
  else if trimmed = str "EXAMPLE" ∧ (st.currentActivity.map (·.type)) = some .exercise then
    { st with activityContentBuffer := st.activityContentBuffer ++ [str "EXAMPLE:"] }
  else
    match fieldMatch trimmed with
    | some (f, v) => handleField f v st
    | none =>
      match st.currentActivity with
      | some _ => { st with activityContentBuffer := st.activityContentBuffer ++ [line] }
      | none => st

/-- The parser state after the line loop and the two finalizers of
`parseModuleFile` have run. -/
def parserFinalState (content : Str) : PState :=
  finalizeLesson (finalizeActivity
    ((splitLines content).foldl (fun st l => processLine l st) initPState))

/-- Model of `parseModuleFile` (lc_parser.ts, lines 121–173).  No line of the
model can raise, so the per-line `try`/`catch` wrapper never fires; the four
mandatory-header validations follow in source order. -/
def parseModuleFile (content : Str) : Except String Module :=
  let st := parserFinalState content
  let m := st.module
  if ¬ strTruthy m.diocoDocId then .error "Missing DIOCO_DOC_ID in .module file"
  else if ¬ strTruthy m.title then .error "Missing TITLE in .module file"
  else if ¬ strTruthy m.targetLang_G then .error "Missing TARGET_LANG_G in .module file"
  else if ¬ strTruthy m.homeLang_G then .error "Missing HOME_LANG_G in .module file"
  else .ok
    { diocoDocId := m.diocoDocId.getD []
      title := m.title.getD []
      description := jsOrNull m.description
      image := jsOrNull m.image
      targetLang_G := m.targetLang_G.getD []
      homeLang_G := m.homeLang_G.getD []
      voiceConfig := st.voiceConfig
      ttsPrompt := m.ttsPrompt
      lessons := m.lessons }

-- =============================================================================
-- Source Block Indexer (source_index.ts)
-- =============================================================================

/-- Raw source block of one activity. -/
structure RawBlock where
  startLine : Nat
  endLine : Nat
  text : Str
deriving DecidableEq, Repr

/-- Walking state of `buildActivityRawIndex`: the map built so far and the
currently open block (activity id and 0-based start index). -/
structure IdxState where
  map : List (Str × RawBlock)
  current : Option (Str × Nat)
deriving DecidableEq, Repr

/-- Model of `generateActivityId` in `source_index.ts` (lines 14–17), which
defaults an empty title to `'untitled'` before slugging. -/
def sourceIndexGenId (type title : Str) : Str :=
  type ++ str "-" ++ slug (jsOrStr title (str "untitled"))

/-- Model of the local `close(endIdxInclusive)` helper (lines 31–41). -/
def idxClose (lines : List Str) (st : IdxState) (endIdxInclusive : Nat) : IdxState :=
  match st.current with
  | none => st
  | some (id, startIdx) =>
    { map := upsert st.map id
        { startLine := startIdx + 1
          endLine := endIdxInclusive + 1
          text := joinNL ((lines.drop startIdx).take (endIdxInclusive + 1 - startIdx)) }
      current := none }

/-- One iteration of the indexer loop (source_index.ts, lines 43–63). -/
def idxLine (lines : List Str) (st : IdxState) (p : Nat × Str) : IdxState :=
  let i := p.1
  let tEnd := trimEnd p.2
  if ¬ startsWith tEnd (str "$") then st
  else
    let st1 := if st.current.isSome then idxClose lines st (i - 1) else st
    match markerMatch tEnd with
    | none => st1
    | some (marker, title0) =>
      let title := trim (title0.getD [])
      if marker = str "DIALOGUE" ∨ marker = str "GRAMMAR" ∨
          marker = str "EXERCISE" ∨ marker = str "CHAT" then
        { st1 with current := some (sourceIndexGenId marker (jsOrStr title marker), i) }
      else st1

/-- Model of `buildActivityRawIndex` (source_index.ts, lines 25–69). -/
def buildActivityRawIndex (text : Str) : List (Str × RawBlock) :=
  let lines := splitLines text
  let st := (lines.enum).foldl (idxLine lines) ⟨[], none⟩
  (if st.current.isSome then idxClose lines st (lines.length - 1) else st).map

-- =============================================================================
-- Diagnostics linter (second half of lc_parser.ts: lintModuleText)
-- =============================================================================

/-- Diagnostic severity. -/
inductive Severity
  | error
  | warning
deriving DecidableEq, BEq, Repr

/-- Linter diagnostic (1-based line number). -/
structure Diagnostic where
  severity : Severity
  line : Nat
  message : Str
  code : Option String
deriving DecidableEq, BEq, Repr

/-- The `ebnfSpec.markers` set (spec_from_ebnf.ts). -/
def sectionNamesList : List Str :=
  [str "CHAT", str "DIALOGUE", str "EXERCISE", str "GRAMMAR", str "LESSON", str "MODULE"]

/-- The `headerFields` set: `ebnfSpec.headerFields ∪ ebnfSpec.voiceFields`. -/
def headerFieldsList : List Str :=
  [str "DESCRIPTION", str "DIOCO_DOC_ID", str "HOME_LANG_G", str "IMAGE",
   str "TARGET_LANG_G", str "TITLE", str "USER_LANG_G",
   str "VOICE_DEFAULT", str "VOICE_INTRO", str "VOICE_PROMPT", str "VOICE_RESPONSE",
   str "VOICE_SPEAKER"]

/-- The `voiceFields` set (`ebnfSpec.voiceFields`). -/
def voiceFieldsList : List Str :=
  [str "VOICE_DEFAULT", str "VOICE_INTRO", str "VOICE_PROMPT", str "VOICE_RESPONSE",
   str "VOICE_SPEAKER"]

/-- The `dialogueFields` set (`ebnfSpec.dialogueFields`). -/
def dialogueFieldsList : List Str :=
  [str "INSTRUCTION", str "INTRO", str "LINE", str "LINE_T", str "NOTES",
   str "SPEAKER", str "VOCAB", str "VOCAB_T"]

/-- The `exerciseFields` set (`ebnfSpec.exerciseFields`). -/
def exerciseFieldsList : List Str :=
  [str "INSTRUCTION", str "INTRO", str "PROMPT", str "PROMPT_T",
   str "RESPONSE", str "RESPONSE_T"]

/-- The `grammarFields` set (`ebnfSpec.grammarFields`). -/
def grammarFieldsList : List Str := [str "INTRO"]

/-- The `chatFields` set (`ebnfSpec.chatFields`). -/
def chatFieldsList : List Str := [str "INITIAL_PROMPT", str "INTRO", str "SCENARIO"]

/-- The `VALID_GEMINI_VOICES` allow-list (lc_parser.ts linter half,
lines 858–889), in insertion order. -/
def validGeminiVoices : List Str :=
  [str "Zephyr", str "Puck", str "Charon", str "Kore", str "Fenrir",
   str "Leda", str "Orus", str "Aoede", str "Callirrhoe", str "Autonoe",
   str "Enceladus", str "Iapetus", str "Umbriel", str "Algieba", str "Despina",
   str "Erinome", str "Algenib", str "Rasalgethi", str "Laomedeia", str "Achernar",
   str "Alnilam", str "Schedar", str "Gacrux", str "Pulcherrima", str "Achird",
   str "Zubenelgenubi", str "Vindemiatrix", str "Sadachbia", str "Sadaltager",
   str "Sulafat"]

/-- ASCII letter test (`[A-Za-z]`). -/
def isAsciiLetter (c : Char) : Bool := ('A' ≤ c && c ≤ 'Z') || ('a' ≤ c && c ≤ 'z')

/-- Model of `idNoSpacesRe = /^[A-Za-z][A-Za-z0-9_]*$/`. -/
def idNoSpacesTest : Str → Bool
  | [] => false
  | c :: rest => isAsciiLetter c && rest.all isWordChar

/-- Model of `/^[A-Z_]+:/.test(t)`: a nonempty `[A-Z_]` run at the start,
followed by a colon (an exists-style test, no end anchor). -/
def fieldColonTest (l : Str) : Bool :=
  let name := l.takeWhile isFieldChar
  !name.isEmpty &&
    (match l.drop name.length with
     | ':' :: _ => true
     | _ => false)

/-- Model of `/^\$(LESSON|DIALOGUE|EXERCISE|GRAMMAR|CHAT)\s*:/.test(trimmedEnd)`. -/
def sectionColonTest (l : Str) : Bool :=
  [str "LESSON", str "DIALOGUE", str "EXERCISE", str "GRAMMAR", str "CHAT"].any fun w =>
    startsWith l (str "$" ++ w) &&
      (match (l.drop (w.length + 1)).dropWhile isWS with
       | ':' :: _ => true
       | _ => false)

/-- Linter state (the local mutable variables of `lintModuleText`). -/
structure LintState where
  diags : List Diagnostic := []
  sawModuleMarker : Bool := false
  sawAnySectionMarker : Bool := false
  inHeader : Bool := true
  currentActivity : Option ActKind := none
  currentLessonLine : Option Nat := none
  seenHeader : List (Str × Nat) := []
  seenVoiceSpeaker : List (Str × Nat × Str) := []
  lastDialogueHadLine : Bool := false
  pendingVocabWord : Option Nat := none
  pendingExercisePrompt : Option Nat := none
  pendingExerciseExample : Option Nat := none
deriving DecidableEq, Repr

/-- Model of the local `push` helper of `lintModuleText` (every call site
passes a code, hence the non-optional argument). -/
def LintState.push (st : LintState) (sev : Severity) (line : Nat) (msg : Str)
    (code : String) : LintState :=
  { st with diags := st.diags ++ [⟨sev, line, msg, some code⟩] }

/-- Lookup in the `seenVoiceSpeaker` map (lowercased label to first-seen line
and original spelling). -/
def lookupSpeaker : List (Str × Nat × Str) → Str → Option (Nat × Str)
  | [], _ => none
  | (k', v') :: rest, k => if k' = k then some v' else lookupSpeaker rest k

/-- Insert into the `seenVoiceSpeaker` map (only called when absent). -/
def insertSpeaker (m : List (Str × Nat × Str)) (k : Str) (v : Nat × Str) :
    List (Str × Nat × Str) := m ++ [(k, v)]

/-- Decimal rendering of a line number (for the `L${line}` interpolation). -/
def natToStr (n : Nat) : Str := (toString n).data

/-- Shared unknown-voice error message. -/
def unknownVoiceMsg (voiceName : Str) : Str :=
  str "Unknown Gemini voice: \"" ++ voiceName ++
    str "\". Valid voices: Zephyr, Puck, Charon, Kore, Fenrir..."

/-- Model of the `VOICE_SPEAKER` validation block of the linter
(lc_parser.ts linter half, lines 1084–1152). -/
def lintVoiceSpeakerField (lineNo : Nat) (value : Str) (st : LintState) : LintState :=
  let st := st.push .warning lineNo
    (str "VOICE_SPEAKER is deprecated; use VOICE: SpeakerId | Display Name | VoiceName | Optional prompt.")
    "voice_speaker-deprecated"
  match speakerMatch value with
  | none =>
    st.push .error lineNo
      (str "VOICE_SPEAKER must be `VOICE_SPEAKER: SpeakerName = VoiceName | Optional prompt`.")
      "voice_speaker-format"
  | some (name0, voice0, _) =>
    let speakerName := trim name0
    let voiceName := trim voice0
    let st := if ¬ idNoSpacesTest speakerName then
        st.push .warning lineNo
          (str "VOICE_SPEAKER label must be alnum only (no spaces): \"" ++ speakerName ++ str "\"")
          "voice_speaker-label"
      else st
    let st := if ¬ idNoSpacesTest voiceName then
        st.push .warning lineNo
          (str "Voice name must be alnum only (no spaces): \"" ++ voiceName ++ str "\"")
          "voice_name"
      else st
    let st := if ¬ validGeminiVoices.contains voiceName then
        st.push .error lineNo (unknownVoiceMsg voiceName) "voice-invalid"
      else st
    let key := toLowerStr speakerName
    let prev := lookupSpeaker st.seenVoiceSpeaker key
    let st :=
      match prev with
      | some (prevLine, prevOriginal) =>
        st.push .warning lineNo
          (str "Duplicate VOICE_SPEAKER mapping for \"" ++ prevOriginal ++
            str "\" (previous at L" ++ natToStr prevLine ++ str ").")
          "voice_speaker-dup"
      | none =>
        { st with seenVoiceSpeaker := insertSpeaker st.seenVoiceSpeaker key (lineNo, speakerName) }
    match prev with
    | some (_, prevOriginal) =>
      if prevOriginal ≠ speakerName then
        st.push .warning lineNo
          (str "VOICE_SPEAKER label casing differs (\"" ++ prevOriginal ++ str "\" vs \"" ++
            speakerName ++ str "\"). Use consistent casing.")
          "voice_speaker-case"
      else st
    | none => st

/-- Model of the `VOICE` (four-part mapping) validation block of the linter
(lc_parser.ts linter half, lines 1153–1196). -/
def lintVoiceField (lineNo : Nat) (value : Str) (st : LintState) : LintState :=
  let parts := (value.splitOn '|').map trim
  if parts.length < 3 then
    st.push .error lineNo
      (str "VOICE must be `VOICE: SpeakerId | Display Name | VoiceName | Optional prompt`.")
      "voice-format"
  else
    let speakerId := parts.headD []
    let displayName := parts.tail.headD []
    let voiceName := parts.tail.tail.headD []
    let st := if ¬ idNoSpacesTest speakerId then
        st.push .warning lineNo
          (str "VOICE speakerId must be alnum/_ only (no spaces): \"" ++ speakerId ++ str "\"")
          "voice-speaker-id"
      else st
    let st := if displayName.isEmpty then
        st.push .warning lineNo
          (str "VOICE display name is empty; provide a display name for readable speaker labels.")
          "voice-display-empty"
      else st
    let st := if ¬ idNoSpacesTest voiceName then
        st.push .warning lineNo
          (str "Voice name must be alnum/_ only (no spaces): \"" ++ voiceName ++ str "\"")
          "voice_name"
      else st
    if ¬ validGeminiVoices.contains voiceName then
      st.push .error lineNo (unknownVoiceMsg voiceName) "voice-invalid"
    else st

/-- Model of the single-voice field validation block of the linter
(lc_parser.ts linter half, lines 1197–1220). -/
def lintSingleVoiceField (lineNo : Nat) (value : Str) (st : LintState) : LintState :=
  match singleVoiceMatch value with
  | none => st
  | some (name0, _) =>
    let voiceName := trim name0
    let st := if ¬ idNoSpacesTest voiceName then
        st.push .warning lineNo
          (str "Voice name must be alnum only (no spaces): \"" ++ voiceName ++ str "\"")
          "voice_name"
      else st
    if ¬ validGeminiVoices.contains voiceName then
      st.push .error lineNo (unknownVoiceMsg voiceName) "voice-invalid"
    else st

/-- Model of the header-context field validation (lc_parser.ts linter half,
lines 1061–1220). -/
def lintHeaderFieldBlock (lineNo : Nat) (field value : Str) (st : LintState) : LintState :=
  let st :=
    if ¬ headerFieldsList.contains field then
      st.push .warning lineNo (str "Unknown header field: " ++ field) "unknown-header-field"
    else
      if field ≠ str "VOICE_SPEAKER" ∧ field ≠ str "VOICE" then
        let st := if (lookupKey st.seenHeader field).isSome then
            st.push .warning lineNo (str "Duplicate header field: " ++ field) "dup-header-field"
          else st
        { st with seenHeader := upsert st.seenHeader field lineNo }
      else st
  let st := if field = str "VOICE_SPEAKER" then lintVoiceSpeakerField lineNo value st else st
  let st := if field = str "VOICE" then lintVoiceField lineNo value st else st
  if voiceFieldsList.contains field ∧ field ≠ str "VOICE_SPEAKER" ∧ field ≠ str "VOICE" then
    lintSingleVoiceField lineNo value st
  else st

/-- Model of the activity-context field validation (lc_parser.ts linter half,
lines 1221–1260). -/
def lintActivityFieldBlock (lineNo : Nat) (field : Str) (kind : ActKind)
    (st : LintState) : LintState :=
  let allowed :=
    match kind with
    | .dialogue => dialogueFieldsList
    | .exercise => exerciseFieldsList
    | .chat => chatFieldsList
    | .grammar => grammarFieldsList
  let st :=
    if ¬ allowed.contains field then
      if kind = .grammar ∧ field = str "IMAGE" then
        st.push .warning lineNo
          (str "IMAGE inside $GRAMMAR is not in the formal grammar and is ignored by lc_parser. Use markdown image syntax `![alt](file.png)`.")
          "grammar-image-ignored"
      else
        st.push .warning lineNo
          (str "Field " ++ field ++ str " is not expected inside $" ++ kindStr kind ++ str ".")
          "field-unexpected"
    else st
  if kind = .grammar ∧ field ≠ str "INTRO" then
    st.push .warning lineNo
      (str "Line looks like a field (" ++ field ++
        str ":) inside $GRAMMAR. lc_parser will likely NOT include it in markdown content.")
      "grammar-field-swallowed"
  else st

/-- Dialogue structural check: `if (field === "LINE") lastDialogueHadLine = true`. -/
def dlgStepLine (f : Str) (st : LintState) : LintState :=
  if f = str "LINE" then { st with lastDialogueHadLine := true } else st

/-- Dialogue structural check: `LINE_T` without a preceding `LINE`. -/
def dlgStepLineT (lineNo : Nat) (f : Str) (st : LintState) : LintState :=
  if f = str "LINE_T" ∧ ¬ st.lastDialogueHadLine then
    st.push .warning lineNo
      (str "LINE_T appears without a preceding LINE in the current dialogue context.")
      "line_t-without-line"
  else st

/-- Dialogue structural check: a `VOCAB` while one is already pending warns at
the pending line, then records the new pending vocab word. -/
def dlgStepVocab (lineNo : Nat) (f : Str) (st : LintState) : LintState :=
  if f = str "VOCAB" then
    let st :=
      match st.pendingVocabWord with
      | some n =>
        st.push .warning n (str "VOCAB must be followed immediately by VOCAB_T (pair).")
          "vocab-missing-vocab_t"
      | none => st
    { st with pendingVocabWord := some lineNo }
  else st

/-- Dialogue structural check: `VOCAB_T` without a preceding `VOCAB`. -/
def dlgStepVocabTWarn (lineNo : Nat) (f : Str) (st : LintState) : LintState :=
  if f = str "VOCAB_T" ∧ st.pendingVocabWord = none then
    st.push .warning lineNo (str "VOCAB_T appears without a preceding VOCAB.")
      "vocab_t-without-vocab"
  else st

/-- Dialogue structural check: `VOCAB_T` clears the pending vocab word. -/
def dlgStepVocabTClear (f : Str) (st : LintState) : LintState :=
  if f = str "VOCAB_T" then { st with pendingVocabWord := none } else st

/-- Dialogue structural check: a `SPEAKER`/`LINE` with a vocab word still
pending warns at the pending line and clears it. -/
def dlgStepFlush (f : Str) (st : LintState) : LintState :=
  if f = str "SPEAKER" ∨ f = str "LINE" then
    match st.pendingVocabWord with
    | some n =>
      let st := st.push .warning n
        (str "VOCAB must be followed immediately by VOCAB_T (pair).") "vocab-missing-vocab_t"
      { st with pendingVocabWord := none }
    | none => st
  else st

/-- Exercise structural check: `PROMPT` records the pending prompt line. -/
def exStepPrompt (lineNo : Nat) (f : Str) (st : LintState) : LintState :=
  if f = str "PROMPT" then { st with pendingExercisePrompt := some lineNo } else st

/-- Exercise structural check: `RESPONSE` before any `PROMPT`. -/
def exStepRespWarn (lineNo : Nat) (f : Str) (st : LintState) : LintState :=
  if f = str "RESPONSE" ∧ st.pendingExercisePrompt = none then
    st.push .warning lineNo (str "RESPONSE appears before PROMPT.") "response-before-prompt"
  else st

/-- Exercise structural check: empty `PROMPT` value. -/
def exStepPromptEmpty (lineNo : Nat) (f v : Str) (st : LintState) : LintState :=
  if f = str "PROMPT" ∧ v = [] then
    st.push .warning lineNo (str "PROMPT is empty.") "empty-prompt"
  else st

/-- Exercise structural check: empty `RESPONSE` value. -/
def exStepRespEmpty (lineNo : Nat) (f v : Str) (st : LintState) : LintState :=
  if f = str "RESPONSE" ∧ v = [] then
    st.push .warning lineNo (str "RESPONSE is empty.") "empty-response"
  else st

/-- Exercise structural check: `RESPONSE` clears the pending prompt. -/
def exStepRespClear (f : Str) (st : LintState) : LintState :=
  if f = str "RESPONSE" then { st with pendingExercisePrompt := none } else st

/-- Exercise structural check: a `PROMPT` consumes a pending example marker. -/
def exStepExampleConsume (f : Str) (st : LintState) : LintState :=
  if f = str "PROMPT" ∧ st.pendingExerciseExample.isSome then
    { st with pendingExerciseExample := none }
  else st

/-- Model of the per-activity structural checks on field lines
(lc_parser.ts linter half, lines 1280–1343), as the sequential composition of
the statements of the two `if` blocks, in source order. -/
def lintFieldStructural (lineNo : Nat) (field value : Str) (st : LintState) : LintState :=
  match st.currentActivity with
  | some .dialogue =>
    dlgStepFlush field
      (dlgStepVocabTClear field
        (dlgStepVocabTWarn lineNo field
          (dlgStepVocab lineNo field
            (dlgStepLineT lineNo field
              (dlgStepLine field st)))))
  | some .exercise =>
    exStepExampleConsume field
      (exStepRespClear field
        (exStepRespEmpty lineNo field value
          (exStepPromptEmpty lineNo field value
            (exStepRespWarn lineNo field
              (exStepPrompt lineNo field st)))))
  | _ => st

/-- Model of the field-line branch of the linter loop (lc_parser.ts linter
half, lines 1055–1345). -/
def lintFieldLine (lineNo : Nat) (field value : Str) (st : LintState) : LintState :=
  let st :=
    if st.inHeader ∧ st.currentLessonLine = none ∧ st.currentActivity = none then
      lintHeaderFieldBlock lineNo field value st
    else
      match st.currentActivity with
      | some kind => lintActivityFieldBlock lineNo field kind st
      | none =>
        if ¬ st.sawModuleMarker ∧ headerFieldsList.contains field then
          st.push .warning lineNo
            (str "Header field " ++ field ++ str " appears before $MODULE. Add a $MODULE header.")
            "header-before-module"
        else
          st.push .warning lineNo
            (str "Field " ++ field ++ str " appears outside an activity; it will likely be ignored.")
            "field-outside-activity"
  lintFieldStructural lineNo field value st

/-- Model of the section-marker branch of the linter loop (lc_parser.ts
linter half, lines 961–1036). -/
def lintMarkerLine (lineNo : Nat) (tEnd : Str) (st : LintState) : LintState :=
  let st := { st with sawAnySectionMarker := true }
  let st := if sectionColonTest tEnd then
      st.push .error lineNo
        (str "Section markers must not use a colon (use `$LESSON Title`, not `$LESSON: Title`).")
        "section-colon"
    else st
  match markerMatch tEnd with
  | none =>
    st.push .warning lineNo (str "Unrecognized section marker format.") "section-format"
  | some (marker, _) =>
    let st := if ¬ sectionNamesList.contains marker then
        st.push .warning lineNo (str "Unknown section marker: $" ++ marker) "section-unknown"
      else st
    let st :=
      match st.pendingVocabWord with
      | some n =>
        let st := st.push .warning n
          (str "VOCAB must be followed immediately by VOCAB_T (pair).") "vocab-missing-vocab_t"
        { st with pendingVocabWord := none }
      | none => st
    match markerKind marker with
    | .module =>
      { st with sawModuleMarker := true, inHeader := true, currentActivity := none }
    | .lesson =>
      { st with inHeader := false, currentActivity := none, currentLessonLine := some lineNo }
    | .activity kind =>
      let st := { st with inHeader := false, currentActivity := some kind }
      let st := if st.currentLessonLine = none then
          st.push .warning lineNo
            (str "Found $" ++ marker ++
              str " before any $LESSON; parser will create a \"Default Lesson\".")
            "implicit-lesson"
        else st
      { st with lastDialogueHadLine := false, pendingVocabWord := none,
                pendingExercisePrompt := none, pendingExerciseExample := none }
    | .unknown => st

/-- The leading-whitespace check of the per-line linter loop body
(lc_parser.ts linter half, lines 939–957). -/
def lintLineIndent (lineNo : Nat) (raw : Str) (st : LintState) : LintState :=
  match raw with
  | c :: _ =>
    if c = ' ' ∨ c = '\t' then
      let t := trimStart raw
      if startsWith t (str "$") then
        st.push .error lineNo
          (str "Section marker must start at column 0 (no leading whitespace).")
          "section-indent"
      else if fieldColonTest t then
        st.push .error lineNo
          (str "Field must start at column 0 (no leading whitespace).")
          "field-indent"
      else st
    else st
  | [] => st

/-- The dispatch half of the per-line linter loop body (after the
indentation check). -/
def lintLineBody (lineNo : Nat) (raw : Str) (st : LintState) : LintState :=
  let tEnd := trimEnd raw
  let trimmed := trim tEnd
  if startsWith tEnd (str "$") then lintMarkerLine lineNo tEnd st
  else if trimmed = str "EXAMPLE" then
      if st.currentActivity ≠ some .exercise then
        st.push .warning lineNo
          (str "EXAMPLE marker is only meaningful inside $EXERCISE.")
          "example-outside-exercise"
      else { st with pendingExerciseExample := some lineNo }
    else
      match fieldMatch tEnd with
      | some (field, value0) => lintFieldLine lineNo field (trim value0) st
      | none =>
        match st.currentActivity with
        | some .grammar => st
        | some kind =>
          st.push .warning lineNo
            (str "Unstructured content line inside $" ++ kindStr kind ++
              str ". Did you forget a FIELD: prefix?")
            "raw-content"
        | none =>
          st.push .warning lineNo
            (str "Content line appears outside any activity; it will be ignored.")
            "content-outside"

/-- Model of one iteration of the linter loop (lc_parser.ts linter half,
lines 930–1371), as the sequential composition of its statements: the
blank/comment early-continues, then the indentation check, then the
line-kind dispatch. -/
def lintLine (st : LintState) (p : Nat × Str) : LintState :=
  let lineNo := p.1 + 1
  let raw := p.2
  let trimmed := trim (trimEnd raw)
  if trimmed.isEmpty then st
  else if startsWith trimmed (str "#") then st
  else lintLineBody lineNo raw (lintLineIndent lineNo raw st)

/-- End-of-file check: vocab word still pending. -/
def endStepVocab (st : LintState) : LintState :=
  match st.pendingVocabWord with
  | some n =>
    st.push .warning n (str "VOCAB must be followed immediately by VOCAB_T (pair).")
      "vocab-missing-vocab_t"
  | none => st

/-- End-of-file check: example marker still pending. -/
def endStepExample (st : LintState) : LintState :=
  match st.pendingExerciseExample with
  | some n =>
    st.push .warning n
      (str "EXAMPLE marker must be immediately followed by an exercise item (PROMPT...).")
      "example-not-applied"
  | none => st

/-- End-of-file check: no section markers at all. -/
def endStepNoSections (st : LintState) : LintState :=
  if ¬ st.sawAnySectionMarker then
    st.push .error 1
      (str "No section markers found. A .module should contain at least `$MODULE` and `$LESSON`/activities.")
      "no-sections"
  else st

/-- End-of-file check: missing module marker. -/
def endStepMissingModule (st : LintState) : LintState :=
  if ¬ st.sawModuleMarker then
    st.push .error 1 (str "Missing `$MODULE` header.") "missing-module"
  else st

/-- End-of-file check: missing `DIOCO_DOC_ID` (inside the
`if (sawModuleMarker)` block, hence the conjunction). -/
def endStepReqDocId (st : LintState) : LintState :=
  if st.sawModuleMarker ∧ (lookupKey st.seenHeader (str "DIOCO_DOC_ID")).isNone then
    st.push .error 1 (str "Missing required header field: DIOCO_DOC_ID") "missing-dioco-doc-id"
  else st

/-- End-of-file check: missing `TITLE`. -/
def endStepReqTitle (st : LintState) : LintState :=
  if st.sawModuleMarker ∧ (lookupKey st.seenHeader (str "TITLE")).isNone then
    st.push .error 1 (str "Missing required header field: TITLE") "missing-title"
  else st

/-- End-of-file check: missing `TARGET_LANG_G`. -/
def endStepReqTarget (st : LintState) : LintState :=
  if st.sawModuleMarker ∧ (lookupKey st.seenHeader (str "TARGET_LANG_G")).isNone then
    st.push .error 1 (str "Missing required header field: TARGET_LANG_G") "missing-target-lang"
  else st

/-- End-of-file check: missing `HOME_LANG_G` and its legacy alias. -/
def endStepReqHome (st : LintState) : LintState :=
  if st.sawModuleMarker ∧ (lookupKey st.seenHeader (str "HOME_LANG_G")).isNone ∧
      (lookupKey st.seenHeader (str "USER_LANG_G")).isNone then
    st.push .error 1
      (str "Missing required header field: HOME_LANG_G (or legacy USER_LANG_G)")
      "missing-home-lang"
  else st

/-- Model of the end-of-file block of `lintModuleText` (lc_parser.ts linter
half, lines 1373–1427), as the sequential composition of its statements. -/
def lintEnd (st : LintState) : LintState :=
  endStepReqHome (endStepReqTarget (endStepReqTitle (endStepReqDocId
    (endStepMissingModule (endStepNoSections (endStepExample (endStepVocab st)))))))

/-- The diagnostic list of `lintModuleText` before the final sort. -/
def rawLintDiags (text : Str) : List Diagnostic :=
  (lintEnd (((splitLines text).enum).foldl lintLine {})).diags

/-- Boolean comparator modelling the JS sort callback
`(a, b) => a.severity === b.severity ? a.line - b.line : a.severity === "error" ? -1 : 1`:
`diagLE a b` holds exactly when the callback returns a non-positive number. -/
def diagLE (a b : Diagnostic) : Bool :=
  if a.severity = b.severity then a.line ≤ b.line else a.severity = .error

/-- Model of `lintModuleText` (lc_parser.ts linter half, lines 901–1436).
`Array.prototype.sort` is stable (ES2019), modelled by the stable
`List.mergeSort`. -/
def lintModuleText (text : Str) : List Diagnostic :=
  (rawLintDiags text).mergeSort diagLE

-- =============================================================================
-- Derived observations used by the specification statements
-- =============================================================================

/-- Decidable statement that no line of `content` is a field line carrying one
of the given field names. -/
def noFieldLineB (names : List Str) (content : Str) : Bool :=
  (splitLines content).all fun l =>
    match fieldMatch (trimEnd l) with
    | some (f, _) => ¬ names.contains f
    | none => true

/-- Activity id contributed by a single source line, if it is an
activity-start marker line (the parser's view). -/
def lineActivityId (l : Str) : Option Str :=
  let t := trimEnd l
  if startsWith t (str "$") then
    match markerMatch t with
    | some (marker, title) =>
      match actKindOfMarker marker with
      | some k => some (generateActivityId k (jsOr title (defaultActTitle k)))
      | none => none
    | none => none
  else none

/-- Activity ids contributed by all lines of a module text, in order. -/
def idsOfText (content : Str) : List Str := (splitLines content).filterMap lineActivityId

/-- Activity ids of a parsed module, in order. -/
def moduleActivityIds (m : Module) : List Str :=
  m.lessons.flatMap fun les => les.activities.map (·.id)

/-- Activity ids accumulated inside a parser state: ids in finished lessons,
then in the open lesson, then the open activity. -/
def accIds (st : PState) : List Str :=
  (st.module.lessons.flatMap fun les => les.activities.map (·.id)) ++
    (match st.currentLesson with
     | some les => les.activities.map (·.id)
     | none => []) ++
    (match st.currentActivity with
     | some a => [a.id]
     | none => [])

/-- Content of the first Grammar activity of a parse result, if any. -/
def firstGrammarContent (r : Except String Module) : Option Str :=
  match r with
  | .error _ => none
  | .ok m =>
    ((m.lessons.flatMap fun les => les.activities).filterMap fun a =>
      match a.payload with
      | .grammar c => some c
      | _ => none).head?

-- =============================================================================
-- Support lemmas: strings and JS idioms
-- =============================================================================

@[simp] theorem startsWith_nil (l : Str) : startsWith l [] = true := by
  cases l <;> rfl

theorem startsWith_append_self (p s : Str) : startsWith (p ++ s) p = true := by
  induction p with
  | nil => simp
  | cons c cs ih =>
    show List.isPrefixOf (c :: cs) (c :: (cs ++ s)) = true
    simp [List.isPrefixOf, ih]

@[simp] theorem jsOr_none (d : Str) : jsOr none d = d := rfl

@[simp] theorem jsOr_some_nil (s : Str) : jsOr (some s) [] = s := by
  cases s <;> simp [jsOr]

@[simp] theorem jsOrNull_none : jsOrNull (none : Option Str) = none := rfl

theorem isEmpty_false_of_ne_nil {s : Str} (h : s ≠ []) : s.isEmpty = false := by
  cases s with
  | nil => exact absurd rfl h
  | cons a l => rfl

-- =============================================================================
-- Dispatch lemmas for the buffered-content walkers
-- =============================================================================

theorem dialogueStep_vocab (st : DState) (w : Str) :
    dialogueStep st (str "VOCAB:" ++ w) =
      { st with
        pendingVocab := st.pendingVocab ++ [⟨trim w, jsOr st.pendingVocabDefinition []⟩]
        pendingVocabDefinition := none } := by
  have h1 : startsWith (str "VOCAB:" ++ w) (str "VOCAB:") = true := startsWith_append_self _ _
  have h4 : (str "VOCAB:" ++ w).drop 6 = w := rfl
  simp [dialogueStep, h1, h4]

theorem dialogueStep_vocabT (st : DState) (d : Str) :
    dialogueStep st (str "VOCAB_T:" ++ d) =
      (if 0 < st.pendingVocab.length then
        { st with pendingVocab := setLastDefinition (trim d) st.pendingVocab }
      else
        { st with pendingVocabDefinition := some (trim d) }) := by
  have h1 : startsWith (str "VOCAB_T:" ++ d) (str "VOCAB:") = false := rfl
  have h2 : startsWith (str "VOCAB_T:" ++ d) (str "VOCAB_T:") = true := startsWith_append_self _ _
  have h4 : (str "VOCAB_T:" ++ d).drop 8 = d := rfl
  simp [dialogueStep, h1, h2, h4]

theorem dialogueStep_line (st : DState) (t : Str) :
    dialogueStep st (str "LINE:" ++ t) =
      (let st1 :=
        if strTruthy st.currentLine.text then
          { st with
            lines := st.lines ++ [flushDialogueLine st.currentLine]
            currentLine := { speaker := st.currentLine.speaker } }
        else st
       let st2 := { st1 with currentLine.text := some (trim t) }
       if 0 < st2.pendingVocab.length then
         { st2 with currentLine.vocab := some st2.pendingVocab, pendingVocab := [] }
       else st2) := by
  have h1 : startsWith (str "LINE:" ++ t) (str "VOCAB:") = false := rfl
  have h2 : startsWith (str "LINE:" ++ t) (str "VOCAB_T:") = false := rfl
  have h3 : startsWith (str "LINE:" ++ t) (str "LINE_T:") = false := rfl
  have h4 : startsWith (str "LINE:" ++ t) (str "NOTES:") = false := rfl
  have h5 : startsWith (str "LINE:" ++ t) (str "SPEAKER:") = false := rfl
  have h6 : startsWith (str "LINE:" ++ t) (str "LINE:") = true := startsWith_append_self _ _
  have h7 : (str "LINE:" ++ t).drop 5 = t := rfl
  simp [dialogueStep, h1, h2, h3, h4, h5, h6, h7]

theorem exerciseStep_example (st : EState) :
    exerciseStep st (str "EXAMPLE:") = { st with isExample := true } := rfl

theorem exerciseStep_prompt (st : EState) (a : Str) :
    exerciseStep st (str "PROMPT:" ++ a) =
      (let st1 :=
        if strTruthy st.currentItem.prompt && strTruthy st.currentItem.response then
          { st with items := st.items ++ [flushExerciseItem st.currentItem] }
        else st
       { st1 with
         currentItem := { prompt := some (trim a), isExample := some st.isExample }
         isExample := false }) := by
  have h1 : startsWith (str "PROMPT:" ++ a) (str "EXAMPLE:") = false := rfl
  have h2 : startsWith (str "PROMPT:" ++ a) (str "PROMPT:") = true := startsWith_append_self _ _
  have h3 : (str "PROMPT:" ++ a).drop 7 = a := rfl
  simp [exerciseStep, h1, h2, h3]

theorem exerciseStep_response (st : EState) (b : Str) :
    exerciseStep st (str "RESPONSE:" ++ b) =
      { st with currentItem.response := some (trim b) } := by
  have h1 : startsWith (str "RESPONSE:" ++ b) (str "EXAMPLE:") = false := rfl
  have h2 : startsWith (str "RESPONSE:" ++ b) (str "PROMPT:") = false := rfl
  have h3 : startsWith (str "RESPONSE:" ++ b) (str "PROMPT_T:") = false := rfl
  have h4 : startsWith (str "RESPONSE:" ++ b) (str "RESPONSE:") = true := startsWith_append_self _ _
  have h5 : (str "RESPONSE:" ++ b).drop 9 = b := rfl
  simp [exerciseStep, h1, h2, h3, h4, h5]

-- =============================================================================
-- Claim C1
-- =============================================================================

/-- C1: for a dialogue body carrying one vocab word and one adjacent vocab
translation, the dialogue line they attach to carries the same
(word, definition) pair whether the translation arrives immediately after the
word or immediately before it. -/
theorem C1_vocab_pair_roundtrip (w d t : Str) (ht : trim t ≠ []) :
    parseDialogueLines [str "VOCAB:" ++ w, str "VOCAB_T:" ++ d, str "LINE:" ++ t] =
      parseDialogueLines [str "VOCAB_T:" ++ d, str "VOCAB:" ++ w, str "LINE:" ++ t] ∧
    parseDialogueLines [str "VOCAB:" ++ w, str "VOCAB_T:" ++ d, str "LINE:" ++ t] =
      [{ speaker := none, text := trim t, translation := [], notes := none,
         vocab := some [⟨trim w, trim d⟩], nlp := none, ttsDataURL := none }] := by
  have hne : (trim t).isEmpty = false := isEmpty_false_of_ne_nil ht
  have hjs : jsOr none ([] : Str) = [] := rfl
  have hjn : jsOrNull (none : Option Str) = none := rfl
  constructor <;>
    simp [parseDialogueLines, dialogueStep_vocab, dialogueStep_vocabT, dialogueStep_line,
      setLastDefinition, strTruthy, flushDialogueLine, hjs, hjn, hne]

/-- Witness for C1 at concrete inputs. -/
theorem C1_vocab_pair_roundtrip_witness :
    trim (str "bonjour") ≠ [] ∧
    parseDialogueLines
        [str "VOCAB:" ++ str "tiens", str "VOCAB_T:" ++ str "well", str "LINE:" ++ str "bonjour"] =
      [{ speaker := none, text := trim (str "bonjour"), translation := [], notes := none,
         vocab := some [⟨trim (str "tiens"), trim (str "well")⟩], nlp := none,
         ttsDataURL := none }] :=
  ⟨by decide, (C1_vocab_pair_roundtrip (str "tiens") (str "well") (str "bonjour") (by decide)).2⟩

-- =============================================================================
-- Claim C2
-- =============================================================================

/-- C2: in an Exercise body, a single example marker followed by one
prompt/response pair marks exactly that one item `isExample = true`; the next
prompt/response pair without its own marker yields `isExample = false`. -/
theorem C2_example_marker_scoping (a b c d : Str)
    (ha : trim a ≠ []) (hb : trim b ≠ []) (hc : trim c ≠ []) (hd : trim d ≠ []) :
    parseExerciseItems
      [str "EXAMPLE:", str "PROMPT:" ++ a, str "RESPONSE:" ++ b,
       str "PROMPT:" ++ c, str "RESPONSE:" ++ d] =
      [{ prompt := trim a, promptTranslation := none, response := trim b,
         responseTranslation := none, isExample := true, promptNlp := none,
         responseNlp := none, promptTtsDataURL := none, responseTtsDataURL := none },
       { prompt := trim c, promptTranslation := none, response := trim d,
         responseTranslation := none, isExample := false, promptNlp := none,
         responseNlp := none, promptTtsDataURL := none, responseTtsDataURL := none }] := by
  have ea := isEmpty_false_of_ne_nil ha
  have eb := isEmpty_false_of_ne_nil hb
  have ec := isEmpty_false_of_ne_nil hc
  have ed := isEmpty_false_of_ne_nil hd
  have hjn : jsOrNull (none : Option Str) = none := rfl
  simp [parseExerciseItems, exerciseStep_example, exerciseStep_prompt, exerciseStep_response,
    strTruthy, flushExerciseItem, jsOrFalse, hjn, ea, eb, ec, ed]

/-- Witness for C2 at the concrete body of example scenario 4
(`EXAMPLE / PROMPT: a / RESPONSE: b / PROMPT: c / RESPONSE: d`). -/
theorem C2_example_marker_scoping_witness :
    parseExerciseItems
      [str "EXAMPLE:", str "PROMPT:" ++ str "a", str "RESPONSE:" ++ str "b",
       str "PROMPT:" ++ str "c", str "RESPONSE:" ++ str "d"] =
      [{ prompt := trim (str "a"), promptTranslation := none, response := trim (str "b"),
         responseTranslation := none, isExample := true, promptNlp := none,
         responseNlp := none, promptTtsDataURL := none, responseTtsDataURL := none },
       { prompt := trim (str "c"), promptTranslation := none, response := trim (str "d"),
         responseTranslation := none, isExample := false, promptNlp := none,
         responseNlp := none, promptTtsDataURL := none, responseTtsDataURL := none }] :=
  C2_example_marker_scoping (str "a") (str "b") (str "c") (str "d")
    (by decide) (by decide) (by decide) (by decide)

-- =============================================================================
-- Claim C4 (corrected)
-- =============================================================================

/-- C4 counterexample: with a pending vocab entry whose definition is already
filled (`VOCAB:w`, `VOCAB_T:d1`), a second vocab translation `VOCAB_T:d2`
overwrites the existing definition instead of being held for the next vocab
word — the resulting pair is (w, d2), not (w, d1). -/
theorem C4_counterexample :
    parseDialogueLines [str "VOCAB:w", str "VOCAB_T:d1", str "VOCAB_T:d2", str "LINE:x"] =
      [{ speaker := none, text := str "x", translation := [], notes := none,
         vocab := some [⟨str "w", str "d2"⟩], nlp := none, ttsDataURL := none }] ∧
    parseDialogueLines [str "VOCAB:w", str "VOCAB_T:d1", str "VOCAB_T:d2", str "LINE:x"] ≠
      [{ speaker := none, text := str "x", translation := [], notes := none,
         vocab := some [⟨str "w", str "d1"⟩], nlp := none, ttsDataURL := none }] := by
  constructor
  · rfl
  · decide

/-- C4 (amended): a vocab-translation tag fills the definition of the most
recently pushed pending entry whenever at least one pending entry exists,
overwriting any definition already present and leaving the held early
definition untouched; it is held as an early-arriving definition only when no
pending entry exists. -/
theorem C4_vocab_translation_fill (st : DState) (d : Str) :
    (st.pendingVocab = [] →
      dialogueStep st (str "VOCAB_T:" ++ d) =
        { st with pendingVocabDefinition := some (trim d) }) ∧
    (st.pendingVocab ≠ [] →
      dialogueStep st (str "VOCAB_T:" ++ d) =
        { st with pendingVocab := setLastDefinition (trim d) st.pendingVocab } ∧
      (dialogueStep st (str "VOCAB_T:" ++ d)).pendingVocabDefinition =
        st.pendingVocabDefinition) := by
  constructor
  · intro h
    rw [dialogueStep_vocabT]
    simp [h]
  · intro h
    rw [dialogueStep_vocabT]
    have : 0 < st.pendingVocab.length := List.length_pos.mpr h
    simp [this]

/-- Witness for C4 (amended) at a concrete state with a filled pending entry. -/
theorem C4_vocab_translation_fill_witness :
    dialogueStep
        { lines := [], currentLine := {}, pendingVocab := [⟨str "w", str "d1"⟩],
          pendingVocabDefinition := none }
        (str "VOCAB_T:" ++ str "d2") =
      { lines := [], currentLine := {},
        pendingVocab :=
          setLastDefinition (trim (str "d2")) [⟨str "w", str "d1"⟩],
        pendingVocabDefinition := none } :=
  ((C4_vocab_translation_fill
    { lines := [], currentLine := {}, pendingVocab := [⟨str "w", str "d1"⟩],
      pendingVocabDefinition := none } (str "d2")).2 (by decide)).1


-- =============================================================================
-- Claim C3 support: module-header slot preservation
-- =============================================================================
theorem handleActivityField_module (f v : Str) (acc : ActivityAcc) (st : PState) :
    (handleActivityField f v acc st).module = st.module := by
  unfold handleActivityField
  repeat' split
  all_goals rfl

theorem finalizeActivity_module_headers (st : PState) :
    (finalizeActivity st).module.diocoDocId = st.module.diocoDocId ∧
    (finalizeActivity st).module.title = st.module.title ∧
    (finalizeActivity st).module.targetLang_G = st.module.targetLang_G ∧
    (finalizeActivity st).module.homeLang_G = st.module.homeLang_G := by
  unfold finalizeActivity
  repeat' split
  all_goals simp

theorem finalizeLesson_module_headers (st : PState) :
    (finalizeLesson st).module.diocoDocId = st.module.diocoDocId ∧
    (finalizeLesson st).module.title = st.module.title ∧
    (finalizeLesson st).module.targetLang_G = st.module.targetLang_G ∧
    (finalizeLesson st).module.homeLang_G = st.module.homeLang_G := by
  unfold finalizeLesson
  repeat' split
  all_goals simp

theorem handleSectionMarker_module_headers (l : Str) (st : PState) :
    (handleSectionMarker l st).module.diocoDocId = st.module.diocoDocId ∧
    (handleSectionMarker l st).module.title = st.module.title ∧
    (handleSectionMarker l st).module.targetLang_G = st.module.targetLang_G ∧
    (handleSectionMarker l st).module.homeLang_G = st.module.homeLang_G := by
  have hfa := finalizeActivity_module_headers
  have hfl := finalizeLesson_module_headers
  unfold handleSectionMarker startActivity
  repeat' split
  all_goals
    simp [apply_ite, (hfa _).1, (hfa _).2.1, (hfa _).2.2.1, (hfa _).2.2.2,
      (hfl _).1, (hfl _).2.1, (hfl _).2.2.1, (hfl _).2.2.2]

theorem handleModuleField_slots (f v : Str) (st : PState) :
    (handleModuleField f v st).module.diocoDocId =
      (if moduleFieldTag f = .diocoDocId then some v else st.module.diocoDocId) ∧
    (handleModuleField f v st).module.title =
      (if moduleFieldTag f = .title then some v else st.module.title) ∧
    (handleModuleField f v st).module.targetLang_G =
      (if moduleFieldTag f = .targetLang then some v else st.module.targetLang_G) ∧
    (handleModuleField f v st).module.homeLang_G =
      (if moduleFieldTag f = .homeLang then some v else st.module.homeLang_G) := by
  cases h : moduleFieldTag f
  all_goals simp only [handleModuleField, h]
  all_goals (repeat' split)
  all_goals simp_all

theorem handleField_headers (f v : Str) (st : PState) :
    (moduleFieldTag f ≠ .diocoDocId →
      (handleField f v st).module.diocoDocId = st.module.diocoDocId) ∧
    (moduleFieldTag f ≠ .title →
      (handleField f v st).module.title = st.module.title) ∧
    (moduleFieldTag f ≠ .targetLang →
      (handleField f v st).module.targetLang_G = st.module.targetLang_G) ∧
    (moduleFieldTag f ≠ .homeLang →
      (handleField f v st).module.homeLang_G = st.module.homeLang_G) := by
  have hs := handleModuleField_slots f v st
  unfold handleField
  split
  · exact ⟨fun h => by rw [hs.1, if_neg h], fun h => by rw [hs.2.1, if_neg h],
      fun h => by rw [hs.2.2.1, if_neg h], fun h => by rw [hs.2.2.2, if_neg h]⟩
  · split
    · simp [handleActivityField_module]
    · simp

theorem processLine_headers (l : Str) (st : PState) :
    ((∀ p, fieldMatch (trimEnd l) = some p → moduleFieldTag p.1 ≠ .diocoDocId) →
      (processLine l st).module.diocoDocId = st.module.diocoDocId) ∧
    ((∀ p, fieldMatch (trimEnd l) = some p → moduleFieldTag p.1 ≠ .title) →
      (processLine l st).module.title = st.module.title) ∧
    ((∀ p, fieldMatch (trimEnd l) = some p → moduleFieldTag p.1 ≠ .targetLang) →
      (processLine l st).module.targetLang_G = st.module.targetLang_G) ∧
    ((∀ p, fieldMatch (trimEnd l) = some p → moduleFieldTag p.1 ≠ .homeLang) →
      (processLine l st).module.homeLang_G = st.module.homeLang_G) := by
  rcases heq : fieldMatch (trimEnd l) with _ | ⟨f, v⟩ <;>
    simp only [processLine, heq] <;> split
  · simp
  · split
    · have := handleSectionMarker_module_headers (trimEnd l) st
      exact ⟨fun _ => this.1, fun _ => this.2.1, fun _ => this.2.2.1, fun _ => this.2.2.2⟩
    · split
      · simp
      · split <;> simp
  · simp
  · split
    · have := handleSectionMarker_module_headers (trimEnd l) st
      exact ⟨fun _ => this.1, fun _ => this.2.1, fun _ => this.2.2.1, fun _ => this.2.2.2⟩
    · split
      · simp
      · have := handleField_headers f v st
        exact ⟨fun h => this.1 (h (f, v) rfl), fun h => this.2.1 (h (f, v) rfl),
          fun h => this.2.2.1 (h (f, v) rfl), fun h => this.2.2.2 (h (f, v) rfl)⟩

theorem strTruthy_none : strTruthy none = false := rfl

theorem foldl_processLine_preserve {β : Type} (proj : PState → β) (ok : Str → Prop)
    (hstep : ∀ l st, ok l → proj (processLine l st) = proj st) :
    ∀ (lines : List Str) (st : PState), (∀ l ∈ lines, ok l) →
      proj (lines.foldl (fun st l => processLine l st) st) = proj st := by
  intro lines
  induction lines with
  | nil => intro st _; rfl
  | cons a rest ih =>
    intro st hall
    rw [List.foldl_cons, ih _ (fun l hl => hall l (List.mem_cons_of_mem _ hl)),
      hstep a st (hall a (List.mem_cons_self _ _))]

theorem moduleFieldTag_cases (f : Str) :
    (moduleFieldTag f = .diocoDocId ↔ f = str "DIOCO_DOC_ID") ∧
    (moduleFieldTag f = .title ↔ f = str "TITLE") ∧
    (moduleFieldTag f = .targetLang ↔ f = str "TARGET_LANG_G") ∧
    (moduleFieldTag f = .homeLang ↔ (f = str "HOME_LANG_G" ∨ f = str "USER_LANG_G")) := by
  by_cases h1 : f = str "DIOCO_DOC_ID"
  · subst h1; decide
  by_cases h2 : f = str "TITLE"
  · subst h2; decide
  by_cases h3 : f = str "DESCRIPTION"
  · subst h3; decide
  by_cases h4 : f = str "IMAGE"
  · subst h4; decide
  by_cases h5 : f = str "TARGET_LANG_G"
  · subst h5; decide
  by_cases h6 : f = str "HOME_LANG_G"
  · subst h6; decide
  by_cases h7 : f = str "USER_LANG_G"
  · subst h7; decide
  by_cases h8 : f = str "TTS_PROMPT"
  · subst h8; decide
  by_cases h9 : f = str "VOICE_DEFAULT"
  · subst h9; decide
  by_cases h10 : f = str "VOICE_PROMPT"
  · subst h10; decide
  by_cases h11 : f = str "VOICE_RESPONSE"
  · subst h11; decide
  by_cases h12 : f = str "VOICE_INTRO"
  · subst h12; decide
  by_cases h13 : f = str "VOICE_SPEAKER"
  · subst h13; decide
  by_cases h14 : f = str "VOICE"
  · subst h14; decide
  have ht : moduleFieldTag f = .other := by
    unfold moduleFieldTag
    rw [if_neg h1, if_neg h2, if_neg h3, if_neg h4, if_neg h5,
      if_neg (not_or.mpr ⟨h6, h7⟩), if_neg h8, if_neg h9, if_neg h10, if_neg h11,
      if_neg h12, if_neg h13, if_neg h14]
  rw [ht]
  refine ⟨⟨fun hc => absurd hc (by decide), fun hc => absurd hc h1⟩,
    ⟨fun hc => absurd hc (by decide), fun hc => absurd hc h2⟩,
    ⟨fun hc => absurd hc (by decide), fun hc => absurd hc h5⟩,
    ⟨fun hc => absurd hc (by decide), fun hc => hc.elim (absurd · h6) (absurd · h7)⟩⟩

/-- C3: for module text in which one of the four mandatory header fields is
absent (no field line carries that name anywhere, the other three slots being
filled), the parser fails with a terminal error naming exactly that field;
for the home-language slot both the modern `HOME_LANG_G` name and the legacy
`USER_LANG_G` alias fill the slot. -/
theorem C3_missing_header_field (content : Str) :
    (noFieldLineB [str "DIOCO_DOC_ID"] content = true →
      parseModuleFile content = .error "Missing DIOCO_DOC_ID in .module file") ∧
    (strTruthy (parserFinalState content).module.diocoDocId = true →
      noFieldLineB [str "TITLE"] content = true →
      parseModuleFile content = .error "Missing TITLE in .module file") ∧
    (strTruthy (parserFinalState content).module.diocoDocId = true →
      strTruthy (parserFinalState content).module.title = true →
      noFieldLineB [str "TARGET_LANG_G"] content = true →
      parseModuleFile content = .error "Missing TARGET_LANG_G in .module file") ∧
    (strTruthy (parserFinalState content).module.diocoDocId = true →
      strTruthy (parserFinalState content).module.title = true →
      strTruthy (parserFinalState content).module.targetLang_G = true →
      noFieldLineB [str "HOME_LANG_G", str "USER_LANG_G"] content = true →
      parseModuleFile content = .error "Missing HOME_LANG_G in .module file") ∧
    (∀ v st, st.currentActivity = none → st.currentLesson = none →
      (handleField (str "HOME_LANG_G") v st).module.homeLang_G = some v ∧
      (handleField (str "USER_LANG_G") v st).module.homeLang_G = some v) := by
  have hokOf : ∀ (names : List Str), noFieldLineB names content = true →
      ∀ l ∈ splitLines content, ∀ p, fieldMatch (trimEnd l) = some p →
        ¬ (p.1 ∈ names) := by
    intro names hno l hl p hp hmem
    have hc := List.all_eq_true.mp hno l hl
    obtain ⟨f, v⟩ := p
    rw [hp] at hc
    simp only [List.contains, decide_eq_true_eq] at hc
    exact hc (List.elem_eq_true_of_mem hmem)
  refine ⟨?_, ?_, ?_, ?_, ?_⟩
  · intro hno
    have hnone : (parserFinalState content).module.diocoDocId = none := by
      unfold parserFinalState
      rw [(finalizeLesson_module_headers _).1, (finalizeActivity_module_headers _).1,
        foldl_processLine_preserve (fun st => st.module.diocoDocId)
          (fun l => ∀ p, fieldMatch (trimEnd l) = some p → moduleFieldTag p.1 ≠ .diocoDocId)
          (fun l st h => (processLine_headers l st).1 h) _ _
          (fun l hl p hp htag =>
            hokOf _ hno l hl p hp (by simp [(moduleFieldTag_cases p.1).1.mp htag]))]
      rfl
    simp [parseModuleFile, hnone, strTruthy_none]
  · intro hd hno
    have hnone : (parserFinalState content).module.title = none := by
      unfold parserFinalState
      rw [(finalizeLesson_module_headers _).2.1, (finalizeActivity_module_headers _).2.1,
        foldl_processLine_preserve (fun st => st.module.title)
          (fun l => ∀ p, fieldMatch (trimEnd l) = some p → moduleFieldTag p.1 ≠ .title)
          (fun l st h => (processLine_headers l st).2.1 h) _ _
          (fun l hl p hp htag =>
            hokOf _ hno l hl p hp (by simp [(moduleFieldTag_cases p.1).2.1.mp htag]))]
      rfl
    simp [parseModuleFile, hnone, strTruthy_none, hd]
  · intro hd ht hno
    have hnone : (parserFinalState content).module.targetLang_G = none := by
      unfold parserFinalState
      rw [(finalizeLesson_module_headers _).2.2.1, (finalizeActivity_module_headers _).2.2.1,
        foldl_processLine_preserve (fun st => st.module.targetLang_G)
          (fun l => ∀ p, fieldMatch (trimEnd l) = some p → moduleFieldTag p.1 ≠ .targetLang)
          (fun l st h => (processLine_headers l st).2.2.1 h) _ _
          (fun l hl p hp htag =>
            hokOf _ hno l hl p hp (by simp [(moduleFieldTag_cases p.1).2.2.1.mp htag]))]
      rfl
    simp [parseModuleFile, hnone, strTruthy_none, hd, ht]
  · intro hd ht hg hno
    have hnone : (parserFinalState content).module.homeLang_G = none := by
      unfold parserFinalState
      rw [(finalizeLesson_module_headers _).2.2.2, (finalizeActivity_module_headers _).2.2.2,
        foldl_processLine_preserve (fun st => st.module.homeLang_G)
          (fun l => ∀ p, fieldMatch (trimEnd l) = some p → moduleFieldTag p.1 ≠ .homeLang)
          (fun l st h => (processLine_headers l st).2.2.2 h) _ _
          (fun l hl p hp htag => by
            rcases (moduleFieldTag_cases p.1).2.2.2.mp htag with h | h <;>
              exact hokOf _ hno l hl p hp (by simp [h]))]
      rfl
    simp [parseModuleFile, hnone, strTruthy_none, hd, ht, hg]
  · intro v st h1 h2
    constructor <;> (unfold handleField; rw [if_pos ⟨h1, h2⟩]; rfl)



/-- Witness for C3 at a concrete module text missing only the home language. -/
theorem C3_missing_header_field_witness :
    parseModuleFile (str "$MODULE\nDIOCO_DOC_ID: x\nTITLE: T\nTARGET_LANG_G: fr\n$LESSON L1") =
      .error "Missing HOME_LANG_G in .module file" :=
  (C3_missing_header_field
    (str "$MODULE\nDIOCO_DOC_ID: x\nTITLE: T\nTARGET_LANG_G: fr\n$LESSON L1")).2.2.2.1
    (by decide) (by decide) (by decide) (by decide)

end LC

namespace LC

theorem push_diags (st : LintState) (sev : Severity) (n : Nat) (msg : Str) (code : String) :
    (st.push sev n msg code).diags = st.diags ++ [⟨sev, n, msg, some code⟩] := rfl

theorem lintVoiceSpeakerField_mono (n : Nat) (v : Str) (st : LintState) :
    st.diags <+: (lintVoiceSpeakerField n v st).diags := by
  rcases hs : speakerMatch v with _ | ⟨nm, vc, pr⟩ <;>
    simp only [lintVoiceSpeakerField, hs]
  · simp only [push_diags, List.append_assoc]
    exact List.prefix_append _ _
  · split_ifs <;> (repeat' split) <;>
      (try simp only [push_diags, List.append_assoc]) <;>
      first
      | exact List.prefix_rfl
      | exact List.prefix_append _ _



theorem lintVoiceField_mono (n : Nat) (v : Str) (st : LintState) :
    st.diags <+: (lintVoiceField n v st).diags := by
  simp only [lintVoiceField]
  split_ifs <;>
    (try simp only [push_diags, List.append_assoc]) <;>
    first
    | exact List.prefix_rfl
    | exact List.prefix_append _ _

theorem lintSingleVoiceField_mono (n : Nat) (v : Str) (st : LintState) :
    st.diags <+: (lintSingleVoiceField n v st).diags := by
  rcases hs : singleVoiceMatch v with _ | ⟨nm, pr⟩ <;>
    simp only [lintSingleVoiceField, hs]
  · exact List.prefix_rfl
  · split_ifs <;>
      (try simp only [push_diags, List.append_assoc]) <;>
      first
      | exact List.prefix_rfl
      | exact List.prefix_append _ _

theorem lintHeaderFieldBlock_mono (n : Nat) (f v : Str) (st : LintState) :
    st.diags <+: (lintHeaderFieldBlock n f v st).diags := by
  unfold lintHeaderFieldBlock
  split_ifs <;>
    repeat
      first
      | exact List.prefix_rfl
      | exact List.prefix_append _ _
      | refine List.IsPrefix.trans ?_ (lintSingleVoiceField_mono _ _ _)
      | refine List.IsPrefix.trans ?_ (lintVoiceField_mono _ _ _)
      | refine List.IsPrefix.trans ?_ (lintVoiceSpeakerField_mono _ _ _)
      | simp only [push_diags, List.append_assoc]



theorem lintActivityFieldBlock_mono (n : Nat) (f : Str) (k : ActKind) (st : LintState) :
    st.diags <+: (lintActivityFieldBlock n f k st).diags := by
  simp only [lintActivityFieldBlock]
  split_ifs <;>
    (try simp only [push_diags, List.append_assoc]) <;>
    first
    | exact List.prefix_rfl
    | exact List.prefix_append _ _



theorem dlgStepLine_mono (f : Str) (st : LintState) :
    st.diags <+: (dlgStepLine f st).diags := by
  unfold dlgStepLine; split <;> exact List.prefix_rfl

theorem dlgStepLineT_mono (n : Nat) (f : Str) (st : LintState) :
    st.diags <+: (dlgStepLineT n f st).diags := by
  unfold dlgStepLineT; split
  · exact List.prefix_append _ _
  · exact List.prefix_rfl

theorem dlgStepVocab_mono (n : Nat) (f : Str) (st : LintState) :
    st.diags <+: (dlgStepVocab n f st).diags := by
  unfold dlgStepVocab
  repeat' split
  all_goals
    first
    | exact List.prefix_rfl
    | exact List.prefix_append _ _

theorem dlgStepVocabTWarn_mono (n : Nat) (f : Str) (st : LintState) :
    st.diags <+: (dlgStepVocabTWarn n f st).diags := by
  unfold dlgStepVocabTWarn; split
  · exact List.prefix_append _ _
  · exact List.prefix_rfl

theorem dlgStepVocabTClear_mono (f : Str) (st : LintState) :
    st.diags <+: (dlgStepVocabTClear f st).diags := by
  unfold dlgStepVocabTClear; split <;> exact List.prefix_rfl

theorem dlgStepFlush_mono (f : Str) (st : LintState) :
    st.diags <+: (dlgStepFlush f st).diags := by
  unfold dlgStepFlush
  repeat' split
  all_goals
    first
    | exact List.prefix_rfl
    | exact List.prefix_append _ _

theorem exStepPrompt_mono (n : Nat) (f : Str) (st : LintState) :
    st.diags <+: (exStepPrompt n f st).diags := by
  unfold exStepPrompt; split <;> exact List.prefix_rfl

theorem exStepRespWarn_mono (n : Nat) (f : Str) (st : LintState) :
    st.diags <+: (exStepRespWarn n f st).diags := by
  unfold exStepRespWarn; split
  · exact List.prefix_append _ _
  · exact List.prefix_rfl

theorem exStepPromptEmpty_mono (n : Nat) (f v : Str) (st : LintState) :
    st.diags <+: (exStepPromptEmpty n f v st).diags := by
  unfold exStepPromptEmpty; split
  · exact List.prefix_append _ _
  · exact List.prefix_rfl

theorem exStepRespEmpty_mono (n : Nat) (f v : Str) (st : LintState) :
    st.diags <+: (exStepRespEmpty n f v st).diags := by
  unfold exStepRespEmpty; split
  · exact List.prefix_append _ _
  · exact List.prefix_rfl

theorem exStepRespClear_mono (f : Str) (st : LintState) :
    st.diags <+: (exStepRespClear f st).diags := by
  unfold exStepRespClear; split <;> exact List.prefix_rfl

theorem exStepExampleConsume_mono (f : Str) (st : LintState) :
    st.diags <+: (exStepExampleConsume f st).diags := by
  unfold exStepExampleConsume; split <;> exact List.prefix_rfl

theorem lintFieldStructural_mono (n : Nat) (f v : Str) (st : LintState) :
    st.diags <+: (lintFieldStructural n f v st).diags := by
  unfold lintFieldStructural
  split
  · exact ((((((dlgStepLine_mono f st).trans
      (dlgStepLineT_mono n f _)).trans
      (dlgStepVocab_mono n f _)).trans
      (dlgStepVocabTWarn_mono n f _)).trans
      (dlgStepVocabTClear_mono f _)).trans
      (dlgStepFlush_mono f _))
  · exact ((((((exStepPrompt_mono n f st).trans
      (exStepRespWarn_mono n f _)).trans
      (exStepPromptEmpty_mono n f v _)).trans
      (exStepRespEmpty_mono n f v _)).trans
      (exStepRespClear_mono f _)).trans
      (exStepExampleConsume_mono f _))
  · exact List.prefix_rfl

theorem lintFieldLine_mono (n : Nat) (f v : Str) (st : LintState) :
    st.diags <+: (lintFieldLine n f v st).diags := by
  simp only [lintFieldLine]
  refine List.IsPrefix.trans ?_ (lintFieldStructural_mono _ _ _ _)
  repeat' split
  all_goals
    repeat
      first
      | exact List.prefix_rfl
      | exact List.prefix_append _ _
      | refine List.IsPrefix.trans ?_ (lintHeaderFieldBlock_mono _ _ _ _)
      | refine List.IsPrefix.trans ?_ (lintActivityFieldBlock_mono _ _ _ _)
      | simp only [push_diags, List.append_assoc]

theorem lintMarkerLine_mono (n : Nat) (t : Str) (st : LintState) :
    st.diags <+: (lintMarkerLine n t st).diags := by
  simp only [lintMarkerLine]
  repeat' split
  all_goals
    first
    | exact List.prefix_rfl
    | exact List.prefix_append _ _
    | (simp only [push_diags, List.append_assoc]
       first
       | exact List.prefix_rfl
       | exact List.prefix_append _ _)

theorem lintLineIndent_mono (n : Nat) (raw : Str) (st : LintState) :
    st.diags <+: (lintLineIndent n raw st).diags := by
  simp only [lintLineIndent]
  repeat' split
  all_goals
    first
    | exact List.prefix_rfl
    | (simp only [push_diags]; exact List.prefix_append _ _)

theorem lintLineBody_mono (n : Nat) (raw : Str) (st : LintState) :
    st.diags <+: (lintLineBody n raw st).diags := by
  simp only [lintLineBody]
  repeat' split
  all_goals
    first
    | exact List.prefix_rfl
    | (simp only [push_diags]; exact List.prefix_append _ _)
    | exact lintMarkerLine_mono _ _ _
    | exact lintFieldLine_mono _ _ _ _

theorem lintLine_mono (st : LintState) (p : Nat × Str) :
    st.diags <+: (lintLine st p).diags := by
  simp only [lintLine]
  split
  · exact List.prefix_rfl
  split
  · exact List.prefix_rfl
  exact List.IsPrefix.trans (lintLineIndent_mono _ _ _) (lintLineBody_mono _ _ _)

theorem endStepVocab_mono (st : LintState) : st.diags <+: (endStepVocab st).diags := by
  unfold endStepVocab
  split
  · exact List.prefix_append _ _
  · exact List.prefix_rfl

theorem endStepExample_mono (st : LintState) : st.diags <+: (endStepExample st).diags := by
  unfold endStepExample
  split
  · exact List.prefix_append _ _
  · exact List.prefix_rfl

theorem endStepNoSections_mono (st : LintState) : st.diags <+: (endStepNoSections st).diags := by
  unfold endStepNoSections
  split
  · exact List.prefix_append _ _
  · exact List.prefix_rfl

theorem endStepMissingModule_mono (st : LintState) :
    st.diags <+: (endStepMissingModule st).diags := by
  unfold endStepMissingModule
  split
  · exact List.prefix_append _ _
  · exact List.prefix_rfl

theorem endStepReqDocId_mono (st : LintState) : st.diags <+: (endStepReqDocId st).diags := by
  unfold endStepReqDocId
  split
  · exact List.prefix_append _ _
  · exact List.prefix_rfl

theorem endStepReqTitle_mono (st : LintState) : st.diags <+: (endStepReqTitle st).diags := by
  unfold endStepReqTitle
  split
  · exact List.prefix_append _ _
  · exact List.prefix_rfl

theorem endStepReqTarget_mono (st : LintState) : st.diags <+: (endStepReqTarget st).diags := by
  unfold endStepReqTarget
  split
  · exact List.prefix_append _ _
  · exact List.prefix_rfl

theorem endStepReqHome_mono (st : LintState) : st.diags <+: (endStepReqHome st).diags := by
  unfold endStepReqHome
  split
  · exact List.prefix_append _ _
  · exact List.prefix_rfl

theorem lintEnd_mono (st : LintState) : st.diags <+: (lintEnd st).diags := by
  unfold lintEnd
  exact (((((((endStepVocab_mono st).trans
    (endStepExample_mono _)).trans
    (endStepNoSections_mono _)).trans
    (endStepMissingModule_mono _)).trans
    (endStepReqDocId_mono _)).trans
    (endStepReqTitle_mono _)).trans
    (endStepReqTarget_mono _)).trans
    (endStepReqHome_mono _)

theorem foldl_lintLine_mono (ps : List (Nat × Str)) (st : LintState) :
    st.diags <+: (ps.foldl lintLine st).diags := by
  induction ps generalizing st with
  | nil => exact List.prefix_rfl
  | cons a rest ih =>
    rw [List.foldl_cons]
    exact List.IsPrefix.trans (lintLine_mono st a) (ih _)



theorem dropWhile_idem (p : Char → Bool) (l : Str) :
    (l.dropWhile p).dropWhile p = l.dropWhile p := by
  induction l with
  | nil => rfl
  | cons c l ih =>
    by_cases h : p c
    · simp [List.dropWhile_cons, h, ih]
    · simp [List.dropWhile_cons, h]

theorem trimEnd_idem (l : Str) : trimEnd (trimEnd l) = trimEnd l := by
  unfold trimEnd
  rw [List.reverse_reverse, dropWhile_idem]

theorem trim_trimEnd (l : Str) : trim (trimEnd l) = trim l := by
  unfold trim
  rw [trimEnd_idem]

theorem trimEnd_prefix (l : Str) : trimEnd l <+: l := by
  obtain ⟨t, ht⟩ := (show l.reverse.dropWhile isWS <:+ l.reverse from List.dropWhile_suffix _)
  exact ⟨t.reverse, by
    unfold trimEnd
    rw [← List.reverse_append, ht, List.reverse_reverse]⟩

theorem trimEnd_cons_shape (c : Char) (l : Str) :
    trimEnd (c :: l) = [] ∨ ∃ t, trimEnd (c :: l) = c :: t := by
  obtain ⟨u, hu⟩ := trimEnd_prefix (c :: l)
  cases h : trimEnd (c :: l) with
  | nil => exact Or.inl rfl
  | cons d ds =>
    rw [h, List.cons_append] at hu
    exact Or.inr ⟨ds, by rw [(List.cons.inj hu).1]⟩



theorem isWS_cases (c : Char) (h : isWS c = true) :
    c = ' ' ∨ c = '\t' ∨ c = '\n' ∨ c = '\r' := by
  simpa [isWS, or_assoc] using h

theorem isWS_beq_dollar (c : Char) (h : isWS c = true) : (c == '$') = false := by
  rcases isWS_cases c h with h | h | h | h <;> subst h <;> rfl

theorem isWS_not_fieldChar (c : Char) (h : isWS c = true) : isFieldChar c = false := by
  rcases isWS_cases c h with h | h | h | h <;> subst h <;> rfl

theorem isWS_ne_E (c : Char) (h : isWS c = true) : c ≠ 'E' := by
  rcases isWS_cases c h with h | h | h | h <;> subst h <;> decide

theorem startsWith_dollar_indented (c : Char) (rest : Str) (h : isWS c = true) :
    startsWith (trimEnd (c :: rest)) (str "$") = false := by
  rcases trimEnd_cons_shape c rest with hs | ⟨t, hs⟩ <;> rw [hs]
  · rfl
  · show List.isPrefixOf ['$'] (c :: t) = false
    have hb : ('$' == c) = false := by
      rcases isWS_cases c h with h | h | h | h <;> subst h <;> rfl
    simp [List.isPrefixOf, hb]

theorem fieldMatch_indented (c : Char) (rest : Str) (h : isWS c = true) :
    fieldMatch (trimEnd (c :: rest)) = none := by
  rcases trimEnd_cons_shape c rest with hs | ⟨t, hs⟩ <;> rw [hs]
  · rfl
  · simp [fieldMatch, List.takeWhile_cons, isWS_not_fieldChar c h]

theorem trimEnd_ne_EXAMPLE (c : Char) (rest : Str) (h : isWS c = true) :
    trimEnd (c :: rest) ≠ str "EXAMPLE" := by
  rcases trimEnd_cons_shape c rest with hs | ⟨t, hs⟩ <;> rw [hs]
  · decide
  · intro hcontra
    exact isWS_ne_E c h (List.cons.inj hcontra).1

theorem processLine_indented (c : Char) (rest : Str) (st : PState)
    (hc : isWS c = true)
    (hcomment : startsWith (trim (c :: rest)) (str "#") = false) :
    processLine (c :: rest) st =
      (match st.currentActivity with
       | some _ =>
         { st with activityContentBuffer := st.activityContentBuffer ++ [c :: rest] }
       | none => st) := by
  have h1 : startsWith (trimStart (trimEnd (c :: rest))) (str "#") = false := hcomment
  simp only [processLine, h1, Bool.false_eq_true, if_false,
    startsWith_dollar_indented c rest hc, fieldMatch_indented c rest hc]
  rw [if_neg]
  intro hcontra
  exact trimEnd_ne_EXAMPLE c rest hc hcontra.1



theorem lintLine_field_indent (st : LintState) (n : Nat) (c : Char) (rest : Str)
    (hc : c = ' ' ∨ c = '\t')
    (hne : (trim (trimEnd (c :: rest))).isEmpty = false)
    (hcm : startsWith (trim (trimEnd (c :: rest))) (str "#") = false)
    (hnd : startsWith (trimStart (c :: rest)) (str "$") = false)
    (hfc : fieldColonTest (trimStart (c :: rest)) = true) :
    (⟨.error, n + 1, str "Field must start at column 0 (no leading whitespace).",
      some "field-indent"⟩ : Diagnostic) ∈ (lintLine st (n, c :: rest)).diags := by
  simp only [lintLine, hne, hcm, Bool.false_eq_true, if_false]
  refine ((lintLineBody_mono _ _ _).sublist).subset ?_
  simp only [lintLineIndent, if_pos hc, hnd, hfc, Bool.false_eq_true, if_false,
    if_true, push_diags]
  exact List.mem_append_right _ (List.mem_singleton.mpr rfl)



/-- C5 counterexample: on a module whose `TITLE` field line is indented by one
space, the linter emits exactly one `field-indent` error at that line, yet the
parser rejects the module with "Missing TITLE in .module file" — the indented
field is *not* applied, contradicting the claim's parser half. -/
theorem C5_counterexample :
    (lintModuleText (str "$MODULE\nDIOCO_DOC_ID: x\n TITLE: x\nTARGET_LANG_G: fr\nHOME_LANG_G: en")).countP
        (fun d => decide (d.severity = Severity.error ∧ d.line = 3 ∧
          d.code = some "field-indent")) = 1 ∧
    parseModuleFile (str "$MODULE\nDIOCO_DOC_ID: x\n TITLE: x\nTARGET_LANG_G: fr\nHOME_LANG_G: en") =
      .error "Missing TITLE in .module file" := by
  constructor
  · rw [lintModuleText, (List.mergeSort_perm _ diagLE).countP_eq]
    decide
  · rfl



/-- C5 (amended): for a field line indented with a leading space or tab (not
blank, not a comment, not a section marker, passing the field-name test), the
linter emits the `field-indent` error diagnostic at that line, while the parser
does **not** apply the field: `processLine` appends the raw line to the open
activity's content buffer, or leaves the state unchanged when no activity is
open. -/
theorem C5_indented_field (st : LintState) (pst : PState) (n : Nat) (c : Char) (rest : Str)
    (hc : c = ' ' ∨ c = '\t')
    (hne : (trim (c :: rest)).isEmpty = false)
    (hcm : startsWith (trim (c :: rest)) (str "#") = false)
    (hnd : startsWith (trimStart (c :: rest)) (str "$") = false)
    (hfc : fieldColonTest (trimStart (c :: rest)) = true) :
    (⟨.error, n + 1, str "Field must start at column 0 (no leading whitespace).",
      some "field-indent"⟩ : Diagnostic) ∈ (lintLine st (n, c :: rest)).diags ∧
    processLine (c :: rest) pst =
      (match pst.currentActivity with
       | some _ =>
         { pst with activityContentBuffer := pst.activityContentBuffer ++ [c :: rest] }
       | none => pst) := by
  have hw : isWS c = true := by rcases hc with h | h <;> subst h <;> rfl
  have hne2 : (trim (trimEnd (c :: rest))).isEmpty = false := by
    rw [trim_trimEnd]; exact hne
  have hcm2 : startsWith (trim (trimEnd (c :: rest))) (str "#") = false := by
    rw [trim_trimEnd]; exact hcm
  exact ⟨lintLine_field_indent st n c rest hc hne2 hcm2 hnd hfc,
    processLine_indented c rest pst hw hcm⟩

/-- Witness for C5 at a concrete indented `TITLE` line. -/
theorem C5_indented_field_witness :
    (⟨.error, 3, str "Field must start at column 0 (no leading whitespace).",
      some "field-indent"⟩ : Diagnostic) ∈ (lintLine {} (2, str " TITLE: x")).diags ∧
    processLine (str " TITLE: x") initPState = initPState := by
  have h := C5_indented_field {} initPState 2 ' ' (str "TITLE: x")
    (Or.inl rfl) (by decide) (by decide) (by decide) (by decide)
  exact ⟨h.1, h.2⟩

end LC

namespace LC

/-- C6 counterexample: a grammar body line `LINE: hello` is *not* swallowed —
it reappears in the activity content, in the normalized form `LINE:hello`
(field name, colon, value with post-colon whitespace dropped). -/
theorem C6_counterexample :
    firstGrammarContent (parseModuleFile
      (str "$MODULE\nDIOCO_DOC_ID: x\nTITLE: T\nTARGET_LANG_G: fr\nHOME_LANG_G: en\n$LESSON L\n$GRAMMAR G\nLINE: hello")) =
      some (str "LINE:hello") := by
  decide

/-- C6 (amended): when a Grammar activity closes its content is the buffered
body lines joined with newlines and trimmed; but a body line shaped like
`FIELD: value` is swallowed only when the field is *not* one of the ten
content-tag fields — for those the activity-level field handler re-appends
the normalized `FIELD:value` string to the buffer, so the line reappears in
the content in normalized form. -/
theorem C6_grammar_content (f v : Str) (acc : ActivityAcc) (st : PState)
    (hacc : st.currentActivity = some acc) (hty : acc.type = .grammar) :
    (activityFieldTag f = .buffered →
      handleField f v st =
        { st with activityContentBuffer :=
            st.activityContentBuffer ++ [f ++ str ":" ++ v] }) ∧
    (activityFieldTag f ≠ .buffered →
      (handleField f v st).activityContentBuffer = st.activityContentBuffer) ∧
    (mkActivity acc st.activityContentBuffer).payload =
      .grammar (trim (joinNL st.activityContentBuffer)) := by
  refine ⟨?_, ?_, ?_⟩
  · intro h
    simp only [handleField, hacc]
    rw [if_neg (by simp)]
    simp only [handleActivityField, h, hacc]
  · intro h
    simp only [handleField, hacc]
    rw [if_neg (by simp)]
    rcases htag : activityFieldTag f <;>
      simp only [handleActivityField, htag] <;>
      first
      | rfl
      | (split_ifs <;> rfl)
      | exact absurd htag h
  · simp only [mkActivity, hty, parseGrammarContent]

/-- Witness for C6 at a concrete grammar activity and `LINE` field. -/
theorem C6_grammar_content_witness :
    handleField (str "LINE") (str "hello")
      { initPState with
          currentLesson := some { id := str "l", title := str "L", activities := [] }
          currentActivity := some { type := .grammar, id := str "g", title := str "G" } } =
      { initPState with
          currentLesson := some { id := str "l", title := str "L", activities := [] }
          currentActivity := some { type := .grammar, id := str "g", title := str "G" }
          activityContentBuffer := [str "LINE" ++ str ":" ++ str "hello"] } ∧
    (mkActivity { type := .grammar, id := str "g", title := str "G" } []).payload =
      .grammar (trim (joinNL [])) := by
  have h := C6_grammar_content (str "LINE") (str "hello")
    { type := .grammar, id := str "g", title := str "G" }
    { initPState with
        currentLesson := some { id := str "l", title := str "L", activities := [] }
        currentActivity := some { type := .grammar, id := str "g", title := str "G" } }
    rfl rfl
  exact ⟨h.1 (by decide), h.2.2⟩

end LC

namespace LC

theorem endStepVocab_pendingExample (st : LintState) :
    (endStepVocab st).pendingExerciseExample = st.pendingExerciseExample := by
  unfold endStepVocab
  split <;> rfl

/-- C7 counterexample: an `EXAMPLE` marker inside `$EXERCISE` that is followed
by a `$DIALOGUE` section marker (not by a prompt) produces *no*
`example-not-applied` warning anywhere in the lint output — the claim's
"fires at marker transitions" half is false. -/
theorem C7_counterexample :
    (lintModuleText (str "$MODULE\nDIOCO_DOC_ID: x\nTITLE: T\nTARGET_LANG_G: fr\nHOME_LANG_G: en\n$LESSON L\n$EXERCISE E\nEXAMPLE\n$DIALOGUE D")).countP
      (fun d => decide (d.code = some "example-not-applied")) = 0 := by
  rw [lintModuleText, (List.mergeSort_perm _ diagLE).countP_eq]
  decide

/-- C7 (amended): a pending `EXAMPLE` marker produces its
`example-not-applied` warning only at end of file; at an activity-marker
transition the linter silently discards the pending marker — the marker
branch clears `pendingExerciseExample` without adding any
`example-not-applied` diagnostic. -/
theorem C7_example_pending (st : LintState) (n lineNo : Nat) (tEnd marker : Str)
    (topt : Option Str) (kind : ActKind)
    (hp : st.pendingExerciseExample = some n)
    (hm : markerMatch tEnd = some (marker, topt))
    (hk : markerKind marker = .activity kind) :
    (⟨.warning, n,
      str "EXAMPLE marker must be immediately followed by an exercise item (PROMPT...).",
      some "example-not-applied"⟩ : Diagnostic) ∈ (lintEnd st).diags ∧
    (lintMarkerLine lineNo tEnd st).pendingExerciseExample = none ∧
    ((lintMarkerLine lineNo tEnd st).diags.countP
        (fun d => decide (d.code = some "example-not-applied")) =
      st.diags.countP (fun d => decide (d.code = some "example-not-applied"))) := by
  refine ⟨?_, ?_, ?_⟩
  · unfold lintEnd
    refine ((endStepReqHome_mono _).sublist).subset
      (((endStepReqTarget_mono _).sublist).subset
      (((endStepReqTitle_mono _).sublist).subset
      (((endStepReqDocId_mono _).sublist).subset
      (((endStepMissingModule_mono _).sublist).subset
      (((endStepNoSections_mono _).sublist).subset ?_)))))
    have hpe : (endStepVocab st).pendingExerciseExample = some n := by
      rw [endStepVocab_pendingExample]; exact hp
    simp only [endStepExample, hpe, push_diags]
    exact List.mem_append_right _ (List.mem_singleton.mpr rfl)
  · simp only [lintMarkerLine, hm, hk]
  · simp only [lintMarkerLine, hm, hk]
    split_ifs <;> (repeat' split) <;>
      (try simp [push_diags, List.countP_append, List.countP_cons])

/-- Witness for C7 at a concrete pending example and `$DIALOGUE D` marker. -/
theorem C7_example_pending_witness :
    (⟨.warning, 5,
      str "EXAMPLE marker must be immediately followed by an exercise item (PROMPT...).",
      some "example-not-applied"⟩ : Diagnostic)
      ∈ (lintEnd { pendingExerciseExample := some 5 }).diags ∧
    (lintMarkerLine 9 (str "$DIALOGUE D")
      { pendingExerciseExample := some 5 }).pendingExerciseExample = none ∧
    ((lintMarkerLine 9 (str "$DIALOGUE D")
        { pendingExerciseExample := some 5 }).diags.countP
        (fun d => decide (d.code = some "example-not-applied")) =
      ({ pendingExerciseExample := some 5 } : LintState).diags.countP
        (fun d => decide (d.code = some "example-not-applied"))) :=
  C7_example_pending { pendingExerciseExample := some 5 } 5 9
    (str "$DIALOGUE D") (str "DIALOGUE") (some (str "D")) .dialogue
    rfl (by decide) (by decide)

end LC

namespace LC

theorem diagLE_trans (a b c : Diagnostic) (h1 : diagLE a b = true)
    (h2 : diagLE b c = true) : diagLE a c = true := by
  obtain ⟨sa, la, _, _⟩ := a
  obtain ⟨sb, lb, _, _⟩ := b
  obtain ⟨sc, lc, _, _⟩ := c
  cases sa <;> cases sb <;> cases sc <;> simp_all [diagLE] <;> omega

theorem diagLE_total (a b : Diagnostic) : (diagLE a b || diagLE b a) = true := by
  obtain ⟨sa, la, _, _⟩ := a
  obtain ⟨sb, lb, _, _⟩ := b
  cases sa <;> cases sb <;> simp_all [diagLE] <;> omega

/-- C8: in the linter's output every diagnostic pair in order satisfies: a
warning is never followed by an error (all errors precede all warnings), and
entries of equal severity have non-decreasing line numbers; moreover the sort
is stable — for every key (severity, line) the subsequence of output entries
with that key equals, in order, the subsequence of pre-sort diagnostics with
that key. -/
theorem C8_sorted_stable (text : Str) (s : Severity) (n : Nat) :
    ((lintModuleText text).Pairwise fun a b =>
      (a.severity = Severity.warning → b.severity = Severity.warning) ∧
      (a.severity = b.severity → a.line ≤ b.line)) ∧
    (lintModuleText text).filter (fun d => decide (d.severity = s ∧ d.line = n)) =
      (rawLintDiags text).filter (fun d => decide (d.severity = s ∧ d.line = n)) := by
  constructor
  · refine (List.sorted_mergeSort diagLE_trans diagLE_total (rawLintDiags text)).imp ?_
    intro a b h
    obtain ⟨sa, la, _, _⟩ := a
    obtain ⟨sb, lb, _, _⟩ := b
    cases sa <;> cases sb <;> simp_all [diagLE]
  · have hperm := List.Perm.filter (fun d => decide (d.severity = s ∧ d.line = n))
      (List.mergeSort_perm (rawLintDiags text) diagLE)
    have hpair : ((rawLintDiags text).filter
        (fun d => decide (d.severity = s ∧ d.line = n))).Pairwise
        (fun a b => diagLE a b = true) := by
      refine List.pairwise_of_forall_mem_list ?_
      intro a ha b hb
      obtain ⟨-, hka⟩ := List.mem_filter.mp ha
      obtain ⟨-, hkb⟩ := List.mem_filter.mp hb
      simp only [decide_eq_true_eq] at hka hkb
      unfold diagLE
      rw [hka.1, hkb.1, if_pos rfl, hka.2, hkb.2]
      simp
    have hsub : ((rawLintDiags text).filter
        (fun d => decide (d.severity = s ∧ d.line = n))).Sublist (lintModuleText text) :=
      List.sublist_mergeSort diagLE_trans diagLE_total hpair (List.filter_sublist _)
    have hsub2 := List.Sublist.filter (fun d => decide (d.severity = s ∧ d.line = n)) hsub
    rw [List.filter_filter] at hsub2
    simp only [Bool.and_self] at hsub2
    exact (hsub2.eq_of_length hperm.length_eq.symm).symm

end LC

namespace LC

set_option maxRecDepth 4096 in
theorem validGeminiVoices_lower_inj :
    ∀ x ∈ validGeminiVoices, ∀ y ∈ validGeminiVoices,
      toLowerStr x = toLowerStr y → x = y := by decide

/-- C10: the voice allow-list check is case-sensitive — the allow-list is
injective under lowercasing, so a voice name that differs from an allow-listed
entry only in letter case is itself not allow-listed, and the single-voice
field check emits the `voice-invalid` unknown-voice error on that line. -/
theorem C10_voice_case_sensitive (lineNo : Nat) (value name0 v w : Str)
    (tail : Option Str) (st : LintState)
    (hm : singleVoiceMatch value = some (name0, tail))
    (hv : trim name0 = v)
    (hw : w ∈ validGeminiVoices)
    (hcase : toLowerStr v = toLowerStr w)
    (hne : v ≠ w) :
    (⟨.error, lineNo, unknownVoiceMsg v, some "voice-invalid"⟩ : Diagnostic)
      ∈ (lintSingleVoiceField lineNo value st).diags := by
  have hnotin : validGeminiVoices.contains v = false := by
    by_contra hcon
    rw [Bool.not_eq_false] at hcon
    have hmem : v ∈ validGeminiVoices := by simpa using hcon
    exact hne (validGeminiVoices_lower_inj v hmem w hw hcase)
  simp only [lintSingleVoiceField, hm, hv, hnotin]
  split_ifs <;> simp_all [push_diags]

/-- Witness for C10 at the concrete voice name `aoede` (vs allow-listed
`Aoede`). -/
theorem C10_voice_case_sensitive_witness :
    (⟨.error, 1, unknownVoiceMsg (str "aoede"), some "voice-invalid"⟩ : Diagnostic)
      ∈ (lintSingleVoiceField 1 (str "aoede") {}).diags :=
  C10_voice_case_sensitive 1 (str "aoede") (str "aoede") (str "aoede") (str "Aoede")
    none {} (by decide) (by decide) (by decide) (by decide) (by decide)

end LC

namespace LC

theorem hasKeyB_upsert {β : Type} (m : List (Str × β)) (k0 k : Str) (v : β) :
    hasKeyB (upsert m k0 v) k = (hasKeyB m k || decide (k0 = k)) := by
  induction m with
  | nil => simp [hasKeyB, upsert]
  | cons p rest ih =>
    obtain ⟨k', v'⟩ := p
    simp only [hasKeyB] at ih
    by_cases hk : k' = k0
    · subst hk
      rcases hd : (decide (k' = k)) <;>
        rcases ha : rest.any (fun p => decide (p.1 = k)) <;>
        simp [hasKeyB, upsert, List.any_cons, hd, ha]
    · simp only [hasKeyB, upsert, if_neg hk, List.any_cons]
      rw [ih]
      exact (Bool.or_assoc _ _ _).symm

theorem dropWhile_head_false {α : Type} (p : α → Bool) (l : List α) (c : α)
    (cs : List α) (h : l.dropWhile p = c :: cs) : p c = false := by
  induction l with
  | nil => simp at h
  | cons x xs ih =>
    rw [List.dropWhile_cons] at h
    by_cases hp : p x = true
    · rw [if_pos hp] at h
      exact ih h
    · rw [if_neg hp] at h
      rw [← (List.cons.inj h).1]
      exact Bool.not_eq_true _ |>.mp hp

theorem trimEnd_of_suffix (s l : Str) (h : s <:+ trimEnd l) : trimEnd s = s := by
  have hp : s.reverse <+: (trimEnd l).reverse := List.reverse_prefix.mpr h
  rw [trimEnd, List.reverse_reverse] at hp
  cases hs : s.reverse with
  | nil =>
    have hse : s = [] := by
      have := congrArg List.reverse hs
      simpa using this
    rw [hse]; rfl
  | cons c cs =>
    rw [hs] at hp
    obtain ⟨t, ht⟩ := hp
    have hc : isWS c = false := dropWhile_head_false isWS l.reverse c (cs ++ t) ht.symm
    have hrev : s = (c :: cs).reverse := by
      have := congrArg List.reverse hs
      simpa using this
    rw [trimEnd, hs, List.dropWhile_cons, hc]
    simp [hrev]

theorem markerMatch_title_trim (l marker t : Str)
    (h : markerMatch (trimEnd l) = some (marker, some t)) : trim t = t := by
  unfold markerMatch at h
  split at h
  case h_2 => simp at h
  case h_1 rest =>
    rename_i heq
    simp only at h
    split at h
    · simp at h
    · split at h
      · simp at h
      · rename_i c cs heq2
        split at h
        · have ht : t = (c :: cs).dropWhile isWS :=
            (Option.some.inj ((Prod.mk.injEq _ _ _ _).mp (Option.some.inj h)).2).symm
          have hsuf : t <:+ trimEnd l := by
            rw [ht, rest]
            refine (List.dropWhile_suffix isWS).trans ?_
            refine (heq2 ▸ List.drop_suffix _ _).trans ?_
            exact List.suffix_cons '$' _
          rw [trim, trimEnd_of_suffix t l hsuf, ht, trimStart]
          exact dropWhile_idem _ _
        · simp at h


theorem actKindOfMarker_eq (marker : Str) (k : ActKind)
    (h : actKindOfMarker marker = some k) : marker = kindStr k := by
  unfold actKindOfMarker at h
  split_ifs at h with h1 h2 h3 h4 <;>
    (cases Option.some.inj h; assumption)

theorem markerKind_activity (marker : Str) (k : ActKind)
    (h : markerKind marker = .activity k) : actKindOfMarker marker = some k := by
  unfold markerKind at h
  split_ifs at h
  rcases hA : actKindOfMarker marker with _ | k2 <;> rw [hA] at h
  · simp at h
  · cases h
    rfl

theorem markerKind_of_actKind (marker : Str) (k : ActKind)
    (h : actKindOfMarker marker = some k) : markerKind marker = .activity k := by
  have hM : marker ≠ str "MODULE" := by
    intro he; rw [he] at h; simp [actKindOfMarker, str] at h
  have hL : marker ≠ str "LESSON" := by
    intro he; rw [he] at h; simp [actKindOfMarker, str] at h
  unfold markerKind
  rw [if_neg hM, if_neg hL, h]

theorem actKindOfMarker_none (marker : Str)
    (h1 : marker ≠ str "DIALOGUE") (h2 : marker ≠ str "GRAMMAR")
    (h3 : marker ≠ str "EXERCISE") (h4 : marker ≠ str "CHAT") :
    actKindOfMarker marker = none := by
  unfold actKindOfMarker
  rw [if_neg h1, if_neg h3, if_neg h2, if_neg h4]

theorem line_id_agree (marker : Str) (title0 : Option Str) (k : ActKind) (l : Str)
    (hm : markerMatch (trimEnd l) = some (marker, title0))
    (hk : actKindOfMarker marker = some k) :
    sourceIndexGenId marker (jsOrStr (trim (title0.getD [])) marker) =
      generateActivityId k (jsOr title0 (defaultActTitle k)) := by
  have hmk : marker = kindStr k := actKindOfMarker_eq marker k hk
  subst hmk
  cases title0 with
  | none =>
    cases k <;> decide
  | some t =>
    have htr : trim t = t := markerMatch_title_trim l _ t hm
    by_cases hemp : t.isEmpty = true
    · have ht : t = [] := by
        cases t
        · rfl
        · simp at hemp
      subst ht
      cases k <;> decide
    · simp only [Option.getD, htr]
      rw [jsOrStr, if_neg hemp]
      rw [show jsOr (some t) (defaultActTitle k) = t from by
        simp only [jsOr]
        rw [if_neg hemp]]
      unfold sourceIndexGenId generateActivityId
      rw [jsOrStr, if_neg hemp]



def idxKeyIn (st : IdxState) (k : Str) : Prop :=
  hasKeyB st.map k = true ∨ ∃ i, st.current = some (k, i)

theorem idxClose_key (lines : List Str) (st : IdxState) (e : Nat) (k : Str) :
    idxKeyIn (idxClose lines st e) k ↔ idxKeyIn st k := by
  unfold idxClose
  rcases hc : st.current with _ | ⟨id, si⟩
  · rfl
  · simp only [idxKeyIn, hasKeyB_upsert, hc]
    constructor
    · rintro (h | ⟨i, hi⟩)
      · rcases Bool.or_eq_true_iff.mp h with h' | h'
        · exact Or.inl h'
        · exact Or.inr ⟨si, by rw [decide_eq_true_eq] at h'; rw [h']⟩
      · simp at hi
    · rintro (h | ⟨i, hi⟩)
      · exact Or.inl (Bool.or_eq_true_iff.mpr (Or.inl h))
      · cases Option.some.inj hi
        exact Or.inl (Bool.or_eq_true_iff.mpr (Or.inr (by simp)))

theorem notStartDollar_lineId (raw : Str)
    (h : startsWith (trimEnd raw) (str "$") = false) :
    lineActivityId raw = none := by
  unfold lineActivityId
  simp only [h, Bool.false_eq_true, if_false]

theorem idxLine_key (lines : List Str) (st : IdxState) (i : Nat) (raw : Str) (k : Str) :
    idxKeyIn (idxLine lines st (i, raw)) k ↔
      (idxKeyIn st k ∨ lineActivityId raw = some k) := by
  by_cases hds : startsWith (trimEnd raw) (str "$") = true
  case neg =>
    have hd : startsWith (trimEnd raw) (str "$") = false := Bool.not_eq_true _ |>.mp hds
    simp only [idxLine, hd, Bool.false_eq_true, not_false_eq_true, if_true,
      notStartDollar_lineId raw hd]
    simp
  case pos =>
    have hst1 : idxKeyIn (if st.current.isSome then idxClose lines st (i - 1) else st) k
        ↔ idxKeyIn st k := by
      split
      · exact idxClose_key lines st (i - 1) k
      · exact Iff.rfl
    have hcur : (if st.current.isSome then idxClose lines st (i - 1) else st).current = none := by
      rcases hc : st.current with _ | ⟨id, si⟩
      · simp [hc]
      · simp [hc, idxClose]
    simp only [idxLine, hds, not_true_eq_false, Bool.false_eq_true, if_false]
    rcases hmm : markerMatch (trimEnd raw) with _ | ⟨marker, title0⟩
    · have hid : lineActivityId raw = none := by
        unfold lineActivityId
        simp only [hds, if_true, hmm]
      simp only [hmm, hid]
      rw [hst1]
      simp
    · by_cases h4 : marker = str "DIALOGUE" ∨ marker = str "GRAMMAR" ∨
          marker = str "EXERCISE" ∨ marker = str "CHAT"
      · have hkk : ∃ kk, actKindOfMarker marker = some kk := by
          rcases h4 with h | h | h | h <;> subst h
          · exact ⟨.dialogue, rfl⟩
          · exact ⟨.grammar, rfl⟩
          · exact ⟨.exercise, rfl⟩
          · exact ⟨.chat, rfl⟩
        obtain ⟨kk, hkk⟩ := hkk
        have hid : lineActivityId raw =
            some (generateActivityId kk (jsOr title0 (defaultActTitle kk))) := by
          unfold lineActivityId
          simp only [hds, if_true, hmm, hkk]
        have hagree := line_id_agree marker title0 kk raw hmm hkk
        simp only [hmm, if_pos h4, hid]
        constructor
        · rintro (h | ⟨i', hi'⟩)
          · exact Or.inl (hst1.mp (Or.inl h))
          · refine Or.inr ?_
            rw [← hagree]
            exact congrArg (fun x => some x.1) (Option.some.inj hi')
        · rintro (h | h)
          · rcases hst1.mpr h with h' | ⟨i', hi'⟩
            · exact Or.inl h'
            · rw [hcur] at hi'
              simp at hi'
          · exact Or.inr ⟨i, by rw [hagree, Option.some.inj h]⟩
      · have hnone : actKindOfMarker marker = none := by
          push_neg at h4
          exact actKindOfMarker_none marker h4.1 h4.2.1 h4.2.2.1 h4.2.2.2
        have hid : lineActivityId raw = none := by
          unfold lineActivityId
          simp only [hds, if_true, hmm, hnone]
        simp only [hmm, if_neg h4, hid]
        rw [hst1]
        simp


theorem foldl_idxLine_key (lines : List Str) (ps : List (Nat × Str)) (st : IdxState)
    (k : Str) :
    idxKeyIn (ps.foldl (idxLine lines) st) k ↔
      (idxKeyIn st k ∨ k ∈ (ps.map Prod.snd).filterMap lineActivityId) := by
  induction ps generalizing st with
  | nil => simp
  | cons p rest ih =>
    obtain ⟨i, raw⟩ := p
    rw [List.foldl_cons, ih, idxLine_key]
    rcases hid : lineActivityId raw with _ | a <;>
      simp [List.filterMap_cons, hid, or_assoc, eq_comm]

theorem buildActivityRawIndex_key (text : Str) (k : Str) :
    hasKeyB (buildActivityRawIndex text) k = true ↔ k ∈ idsOfText text := by
  unfold buildActivityRawIndex idsOfText
  have h1 := foldl_idxLine_key (splitLines text) ((splitLines text).enum) ⟨[], none⟩ k
  rw [List.enum_map_snd] at h1
  have h0 : idxKeyIn ⟨[], none⟩ k ↔ False := by
    simp [idxKeyIn, hasKeyB]
  rw [h0, false_or] at h1
  rw [← h1]
  rcases hc : ((splitLines text).enum.foldl (idxLine (splitLines text)) ⟨[], none⟩).current
    with _ | ⟨id, si⟩
  · simp only [hc, Option.isSome_none, Bool.false_eq_true, if_false, idxKeyIn, hc]
    simp
  · simp only [hc, Option.isSome_some, if_true, idxClose, hc, idxKeyIn, hasKeyB_upsert]
    constructor
    · intro h
      rcases Bool.or_eq_true_iff.mp h with h' | h'
      · exact Or.inl h'
      · exact Or.inr ⟨si, by rw [decide_eq_true_eq] at h'; rw [h']⟩
    · rintro (h | ⟨i, hi⟩)
      · exact Bool.or_eq_true_iff.mpr (Or.inl h)
      · cases Option.some.inj hi
        exact Bool.or_eq_true_iff.mpr (Or.inr (by simp))


def pInv (st : PState) : Prop :=
  st.currentActivity.isSome = true → st.currentLesson.isSome = true

theorem finalizeActivity_accIds (st : PState) (hP : pInv st) :
    accIds (finalizeActivity st) = accIds st ∧
    (finalizeActivity st).currentActivity = none ∧
    (finalizeActivity st).currentLesson.isSome = st.currentLesson.isSome ∧
    (finalizeActivity st).module.lessons = st.module.lessons := by
  unfold finalizeActivity
  rcases hA : st.currentActivity with _ | acc
  · rcases hL : st.currentLesson with _ | les <;> simp [hA, hL, accIds]
  · rcases hL : st.currentLesson with _ | les
    · exact absurd (hP (by rw [hA]; rfl)) (by rw [hL]; simp)
    · refine ⟨?_, ?_, ?_, ?_⟩ <;>
        simp [hA, hL, accIds, mkActivity]

theorem finalizeLesson_accIds (st : PState) :
    accIds (finalizeLesson st) = accIds st ∧
    (finalizeLesson st).currentLesson = none ∧
    (finalizeLesson st).currentActivity = st.currentActivity ∧
    True := by
  unfold finalizeLesson
  rcases hL : st.currentLesson with _ | les
  · simp [hL, accIds]
  · simp [hL, accIds, List.flatMap_append]

theorem startActivity_accIds (st : PState) (k : ActKind) (title : Str) (hP : pInv st) :
    accIds (startActivity st k title) = accIds st ++ [generateActivityId k title] ∧
    pInv (startActivity st k title) ∧
    (startActivity st k title).currentLesson.isSome = true := by
  obtain ⟨h1, h2, h3, h4⟩ := finalizeActivity_accIds st hP
  rw [← h1]
  unfold startActivity
  refine ⟨?_, ?_, ?_⟩
  · rcases hL : (finalizeActivity st).currentLesson with _ | les
    · simp [hL, accIds, h2]
    · simp [hL, accIds, h2, show (finalizeActivity st).currentLesson ≠ none from by
        rw [hL]; simp]
  · intro _
    rcases hL : (finalizeActivity st).currentLesson with _ | les <;> simp [hL]
  · rcases hL : (finalizeActivity st).currentLesson with _ | les <;> simp [hL]


theorem handleField_accIds (f v : Str) (st : PState) :
    accIds (handleField f v st) = accIds st ∧
    (handleField f v st).currentLesson = st.currentLesson ∧
    (handleField f v st).currentActivity.isSome = st.currentActivity.isSome := by
  unfold handleField
  split
  · rcases htag : moduleFieldTag f <;>
      simp only [handleModuleField, htag] <;>
      (repeat' split) <;>
      simp [accIds]
  · rcases hA : st.currentActivity with _ | acc <;> simp only [hA]
    · simp [accIds]
    · rcases htag : activityFieldTag f <;>
        simp only [handleActivityField, htag] <;>
        (try split_ifs) <;>
        simp [accIds, hA]


theorem markerKind_module (mk : Str) (h : markerKind mk = .module) :
    mk = str "MODULE" := by
  by_cases h1 : mk = str "MODULE"
  · exact h1
  exfalso
  unfold markerKind at h
  rw [if_neg h1] at h
  by_cases h2 : mk = str "LESSON"
  · rw [if_pos h2] at h
    simp at h
  · rw [if_neg h2] at h
    rcases hA : actKindOfMarker mk with _ | k <;> rw [hA] at h <;> simp at h

theorem markerKind_lesson (mk : Str) (h : markerKind mk = .lesson) :
    mk = str "LESSON" := by
  by_cases h2 : mk = str "LESSON"
  · exact h2
  exfalso
  unfold markerKind at h
  by_cases h1 : mk = str "MODULE"
  · rw [if_pos h1] at h
    simp at h
  · rw [if_neg h1, if_neg h2] at h
    rcases hA : actKindOfMarker mk with _ | k <;> rw [hA] at h <;> simp at h

theorem markerKind_unknown (mk : Str) (h : markerKind mk = .unknown) :
    actKindOfMarker mk = none := by
  unfold markerKind at h
  by_cases h1 : mk = str "MODULE"
  · rw [if_pos h1] at h
    simp at h
  · rw [if_neg h1] at h
    by_cases h2 : mk = str "LESSON"
    · rw [if_pos h2] at h
      simp at h
    · rw [if_neg h2] at h
      rcases hA : actKindOfMarker mk with _ | k
      · rfl
      · rw [hA] at h
        simp at h

theorem startsWith_dollar_shape (x : Str) (h : startsWith x (str "$") = true) :
    ∃ t, x = '$' :: t := by
  cases x with
  | nil => simp [startsWith, str, List.isPrefixOf] at h
  | cons c t =>
    refine ⟨t, ?_⟩
    have : ('$' == c) = true := by
      simpa [startsWith, str, List.isPrefixOf] using h
    rw [show c = '$' from (beq_iff_eq.mp this).symm]

theorem dollar_lineId (l : Str) (hds : startsWith (trimEnd l) (str "$") = true) :
    lineActivityId l =
      (match markerMatch (trimEnd l) with
       | some (marker, title) =>
         match actKindOfMarker marker with
         | some k => some (generateActivityId k (jsOr title (defaultActTitle k)))
         | none => none
       | none => none) := by
  unfold lineActivityId
  simp only [hds, if_true]

theorem handleSectionMarker_accIds (l : Str) (st : PState) (hP : pInv st)
    (hds : startsWith (trimEnd l) (str "$") = true) :
    accIds (handleSectionMarker (trimEnd l) st) = accIds st ++ (lineActivityId l).toList ∧
    pInv (handleSectionMarker (trimEnd l) st) := by
  rw [dollar_lineId l hds]
  unfold handleSectionMarker
  rcases hmm : markerMatch (trimEnd l) with _ | ⟨marker, title⟩
  · simp only [hmm]
    exact ⟨by simp, hP⟩
  · rcases hk : markerKind marker with _ | _ | k | _
    · have hmod := markerKind_module marker hk
      subst hmod
      simp only [hmm, hk]
      refine ⟨?_, hP⟩
      rw [show actKindOfMarker (str "MODULE") = none from by decide]
      simp
    · have hles := markerKind_lesson marker hk
      subst hles
      obtain ⟨h1, h2, h3, h4⟩ := finalizeActivity_accIds st hP
      obtain ⟨g1, g2, g3, -⟩ := finalizeLesson_accIds (finalizeActivity st)
      have hact : (finalizeLesson (finalizeActivity st)).currentActivity = none :=
        g3.trans h2
      have hflat : ((finalizeLesson (finalizeActivity st)).module.lessons.flatMap
          fun les => les.activities.map (fun a => a.id)) = accIds st := by
        have := g1.trans h1
        rw [accIds, g2, hact] at this
        simpa using this
      simp only [hmm, hk]
      constructor
      · rw [show actKindOfMarker (str "LESSON") = none from by decide]
        rw [accIds]
        simp only [hact]
        simp [hflat]
      · intro _
        simp
    · have hkk : actKindOfMarker marker = some k := markerKind_activity marker k hk
      obtain ⟨h1, h2, h3⟩ :=
        startActivity_accIds st k (jsOr title (defaultActTitle k)) hP
      simp only [hmm, hk, hkk]
      exact ⟨by rw [h1]; simp, h2⟩
    · have hnone := markerKind_unknown marker hk
      simp only [hmm, hk, hnone]
      exact ⟨by simp, hP⟩


theorem processLine_accIds (l : Str) (st : PState) (hP : pInv st) :
    accIds (processLine l st) = accIds st ++ (lineActivityId l).toList ∧
    pInv (processLine l st) := by
  unfold processLine
  by_cases hcm : startsWith (trimStart (trimEnd l)) (str "#") = true
  · have hds : startsWith (trimEnd l) (str "$") = false := by
      by_contra hh
      rw [Bool.not_eq_false] at hh
      obtain ⟨t, htl⟩ := startsWith_dollar_shape (trimEnd l) hh
      rw [htl] at hcm
      rw [show trimStart ('$' :: t) = '$' :: t from by
        unfold trimStart
        rw [List.dropWhile_cons]
        rfl] at hcm
      simp [startsWith, str, List.isPrefixOf] at hcm
    simp only [hcm, if_true, notStartDollar_lineId l hds]
    exact ⟨by simp, hP⟩
  · by_cases hds : startsWith (trimEnd l) (str "$") = true
    · simp only [hcm, Bool.false_eq_true, if_false, hds, if_true]
      exact handleSectionMarker_accIds l st hP hds
    · have hds2 : startsWith (trimEnd l) (str "$") = false := Bool.not_eq_true _ |>.mp hds
      simp only [hcm, Bool.false_eq_true, if_false, hds2, notStartDollar_lineId l hds2]
      by_cases hex : trimEnd l = str "EXAMPLE" ∧
          (st.currentActivity.map (fun a => a.type)) = some ActKind.exercise
      · rw [if_pos hex]
        exact ⟨by simp [accIds], hP⟩
      · rw [if_neg hex]
        rcases hfm : fieldMatch (trimEnd l) with _ | ⟨f, v⟩
        · rcases hA : st.currentActivity with _ | acc <;> simp only [hA]
          · exact ⟨by simp, hP⟩
          · refine ⟨by simp [accIds, hA], ?_⟩
            intro h
            exact hP (by rw [hA]; rfl)
        · obtain ⟨k1, k2, k3⟩ := handleField_accIds f v st
          refine ⟨by rw [k1]; simp, ?_⟩
          intro h
          rw [k3] at h
          have := hP h
          rw [k2]
          exact this


theorem foldl_processLine_accIds (ls : List Str) (st : PState) (hP : pInv st) :
    accIds (ls.foldl (fun st l => processLine l st) st) =
      accIds st ++ ls.filterMap lineActivityId ∧
    pInv (ls.foldl (fun st l => processLine l st) st) := by
  induction ls generalizing st with
  | nil => exact ⟨by simp, hP⟩
  | cons a rest ih =>
    obtain ⟨h1, h2⟩ := processLine_accIds a st hP
    obtain ⟨g1, g2⟩ := ih (processLine a st) h2
    refine ⟨?_, g2⟩
    rw [List.foldl_cons, g1, h1]
    rcases hid : lineActivityId a with _ | x <;>
      simp [List.filterMap_cons, hid]

theorem parserFinalState_accIds (content : Str) :
    accIds (parserFinalState content) = idsOfText content ∧
    (parserFinalState content).currentLesson = none ∧
    (parserFinalState content).currentActivity = none := by
  have hinit : pInv initPState := by
    intro h
    simp [initPState] at h
  obtain ⟨h1, h2⟩ := foldl_processLine_accIds (splitLines content) initPState hinit
  obtain ⟨f1, f2, f3, -⟩ := finalizeActivity_accIds _ h2
  obtain ⟨g1, g2, g3, -⟩ := finalizeLesson_accIds
    (finalizeActivity ((splitLines content).foldl (fun st l => processLine l st) initPState))
  unfold parserFinalState
  refine ⟨?_, g2, g3.trans f2⟩
  rw [g1, f1, h1]
  rw [show accIds initPState = [] from rfl]
  rw [idsOfText]
  simp

/-- C9: for every module text the parser accepts, the key set of the map
built by the Source Block Indexer coincides with the set of activity ids the
parser assigned: a string is a key of `buildActivityRawIndex content` exactly
when it is among the ids of the parsed module's activities.  Both sides derive
each id from the same marker line as the activity kind, a dash, and the
slugified title, and their different fallbacks for a missing title ("Dialogue"
vs the marker word "DIALOGUE") coincide after slugification. -/
theorem C9_index_parser_ids (content : Str) (m : Module)
    (h : parseModuleFile content = .ok m) (k : Str) :
    hasKeyB (buildActivityRawIndex content) k = true ↔ k ∈ moduleActivityIds m := by
  have hidx := buildActivityRawIndex_key content k
  obtain ⟨p1, p2, p3⟩ := parserFinalState_accIds content
  have hles : m.lessons = (parserFinalState content).module.lessons := by
    simp only [parseModuleFile] at h
    split_ifs at h
    exact (congrArg Module.lessons (Except.ok.inj h)).symm
  have hacc : accIds (parserFinalState content) = moduleActivityIds m := by
    rw [accIds, p2, p3, moduleActivityIds, hles]
    simp
  rw [hidx, ← p1, hacc]


/-- Witness for C9 at a concrete accepted module with one dialogue. -/
theorem C9_index_parser_ids_witness :
    parseModuleFile
      (str "$MODULE\nDIOCO_DOC_ID: x\nTITLE: T\nTARGET_LANG_G: fr\nHOME_LANG_G: en\n$LESSON L\n$DIALOGUE D") =
      .ok
      { diocoDocId := str "x"
        title := str "T"
        description := none
        image := none
        targetLang_G := str "fr"
        homeLang_G := str "en"
        voiceConfig := { default := none, prompt := none, response := none,
                         introVoice := none, speakers := [] }
        ttsPrompt := none
        lessons := [{ id := str "l", title := str "L",
                      activities := [{ id := str "DIALOGUE-d", title := str "D",
                                       intro := none,
                                       payload := .dialogue none none [] }] }] } ∧
    (hasKeyB (buildActivityRawIndex
        (str "$MODULE\nDIOCO_DOC_ID: x\nTITLE: T\nTARGET_LANG_G: fr\nHOME_LANG_G: en\n$LESSON L\n$DIALOGUE D"))
        (str "DIALOGUE-d") = true ↔
      str "DIALOGUE-d" ∈ moduleActivityIds
      { diocoDocId := str "x"
        title := str "T"
        description := none
        image := none
        targetLang_G := str "fr"
        homeLang_G := str "en"
        voiceConfig := { default := none, prompt := none, response := none,
                         introVoice := none, speakers := [] }
        ttsPrompt := none
        lessons := [{ id := str "l", title := str "L",
                      activities := [{ id := str "DIALOGUE-d", title := str "D",
                                       intro := none,
                                       payload := .dialogue none none [] }] }] }) :=
  ⟨rfl,
   C9_index_parser_ids
     (str "$MODULE\nDIOCO_DOC_ID: x\nTITLE: T\nTARGET_LANG_G: fr\nHOME_LANG_G: en\n$LESSON L\n$DIALOGUE D")
     _ rfl (str "DIALOGUE-d")⟩

end LC
